import Mathlib

set_option maxHeartbeats 1000000
set_option maxRecDepth 16384

/-
Verification of the SIGGRAPH Asia 2025 technical-papers scraper
(`scraper.py`).  The Python functions are embedded shallowly: JSON file
contents become values of an inductive `J` type, Python dictionaries become
insertion-ordered association lists with assignment (`dictInsert`) and lookup
(`alookup`) mirroring CPython dict semantics, and the regex-driven extraction
is embedded as explicit left-to-right scanners that implement the concrete
patterns of the source.
-/

/-- A JSON value, as parsed from the sidecar file `url.json`.  Objects are
modelled as association lists of string keys (as produced by `json.load`,
whose objects have unique keys). -/
inductive J where
  | jnull : J
  | jbool : Bool → J
  | jnum : Int → J
  | jstr : String → J
  | jarr : List J → J
  | jobj : List (String × J) → J

/-- Assignment `m[k] = v` on an insertion-ordered dictionary modelled as an
association list: an existing key keeps its position and receives the new
value, a fresh key is appended at the end (CPython dict semantics). -/
def dictInsert {α β : Type} [DecidableEq α] : List (α × β) → α → β → List (α × β)
  | [], k, v => [(k, v)]
  | (k', v') :: rest, k, v =>
      if k' = k then (k, v) :: rest else (k', v') :: dictInsert rest k v

/-- Dictionary lookup `m.get(k)` on an association list. -/
def alookup {α β : Type} [DecidableEq α] : List (α × β) → α → Option β
  | [], _ => none
  | (k', v) :: rest, k => if k' = k then some v else alookup rest k

/-- `item.get(key, "")` followed by the `isinstance(x, str)` coercion of
`_load_existing_meta`: a missing or non-string field becomes `""`. -/
def jGetStr (fields : List (String × J)) (key : String) : String :=
  match alookup fields key with
  | some (J.jstr s) => s
  | _ => ""

/-- The loop body of `_load_existing_meta` for the list-of-records shape:
a record that is not a dict, or whose `id` is not a string, is skipped;
otherwise its (coerced) url/abstract are stored under its id. -/
def metaStepList (m : List (String × (String × String))) (item : J) :
    List (String × (String × String)) :=
  match item with
  | J.jobj fields =>
      match alookup fields ("id") with
      | some (J.jstr pid) =>
          dictInsert m pid (jGetStr fields ("url"), jGetStr fields ("abstract"))
      | _ => m
  | _ => m

/-- The loop body of `_load_existing_meta` for the map-of-records shape:
keys of a parsed JSON object are always strings, so only the
`isinstance(item, dict)` test remains. -/
def metaStepMap (m : List (String × (String × String))) (kv : String × J) :
    List (String × (String × String)) :=
  match kv.2 with
  | J.jobj fields =>
      dictInsert m kv.1 (jGetStr fields ("url"), jGetStr fields ("abstract"))
  | _ => m

/-- `_load_existing_meta`: reads `url.json` into an identifier → (url,
abstract) map.  The argument is the parsed file content; `none` stands for a
missing file or a `json.load` failure, both of which yield the empty map. -/
def _load_existing_meta : Option J → List (String × (String × String))
  | none => []
  | some (J.jarr items) => items.foldl metaStepList []
  | some (J.jobj kvs) => kvs.foldl metaStepMap []
  | some _ => []

/-- A paper record as produced by `extract_technical_papers`. -/
structure Paper where
  id : String
  session_id : String
  title : String
  authors : List String
  image : Option String
deriving DecidableEq

/-- Python `s or ""` on a string: `""` when `s` is falsy (empty), else `s`. -/
def pyOr (s : String) : String := if s = "" then "" else s

/-- One scaffold entry of `write_urls_json`, as a JSON object. -/
def entryJson (pid title session url abstract : String) : J :=
  J.jobj [(("id"), J.jstr pid), (("title"), J.jstr title),
          (("session"), J.jstr session), (("url"), J.jstr url),
          (("abstract"), J.jstr abstract)]

/-- The entry `write_urls_json` emits for one paper of session `sname`,
given the previously stored metadata map `existing`. -/
def writeEntry (existing : List (String × (String × String))) (sname : String)
    (paper : Paper) : J :=
  let pid := "papers_" ++ paper.id
  let url := match alookup existing pid with
    | some prev => pyOr prev.1
    | none => ""
  let abstract := match alookup existing pid with
    | some prev => pyOr prev.2
    | none => ""
  entryJson pid paper.title sname url abstract

/-- `write_urls_json`: for every paper of the grouped output (in dict
iteration order) emit a scaffold record, carrying forward any url/abstract
already stored under the same derived identifier; the result is the JSON
value written to `url.json`. -/
def write_urls_json (papers_by_session : List (String × List Paper))
    (file : Option J) : J :=
  let existing := _load_existing_meta file
  J.jarr ((papers_by_session.map
    (fun sp => sp.2.map (fun paper => writeEntry existing sp.1 paper))).flatten)

theorem alookup_dictInsert_self {α β : Type} [DecidableEq α]
    (m : List (α × β)) (k : α) (v : β) :
    alookup (dictInsert m k v) k = some v := by
  induction m with
  | nil => simp [dictInsert, alookup]
  | cons hd tl ih =>
      by_cases h : hd.1 = k
      · simp [dictInsert, h, alookup]
      · simpa [dictInsert, h, alookup] using ih

theorem alookup_dictInsert_ne {α β : Type} [DecidableEq α]
    (m : List (α × β)) (k k' : α) (v : β) (h : k' ≠ k) :
    alookup (dictInsert m k v) k' = alookup m k' := by
  induction m with
  | nil => simp [dictInsert, alookup, h, Ne.symm h]
  | cons hd tl ih =>
      by_cases h1 : hd.1 = k
      · subst h1
        simp [dictInsert, alookup, Ne.symm h, h]
      · by_cases h2 : hd.1 = k'
        · simp [dictInsert, alookup, h1, h2, h]
        · simpa [dictInsert, alookup, h1, h2] using ih

theorem pyOr_eq (s : String) : pyOr s = s := by
  unfold pyOr
  split <;> simp_all

theorem alookup_foldl_dictInsert_fun {α β : Type} [DecidableEq α] (g : α → β)
    (ks : List α) (m : List (α × β)) (k : α) :
    alookup (ks.foldl (fun acc key => dictInsert acc key (g key)) m) k
      = if k ∈ ks then some (g k) else alookup m k := by
  induction ks generalizing m with
  | nil => simp
  | cons hd tl ih =>
      simp only [List.foldl_cons]
      rw [ih]
      by_cases hk : k ∈ tl
      · simp [hk]
      · by_cases he : k = hd
        · subst he
          simp [hk, alookup_dictInsert_self]
        · simp [hk, he, alookup_dictInsert_ne _ _ _ _ he]

theorem metaStepList_entryJson (m : List (String × (String × String)))
    (pid t s u a : String) :
    metaStepList m (entryJson pid t s u a) = dictInsert m pid (u, a) := rfl

/-- The derived identifiers `papers_<id>` of all papers of a grouped output,
in the order `write_urls_json` visits them. -/
def writtenPids (papers_by_session : List (String × List Paper)) : List String :=
  (papers_by_session.map (fun sp => sp.2.map (fun p => "papers_" ++ p.id))).flatten

/-- The url/abstract pair a scaffold entry for `pid` carries: the previously
stored pair when present, blank otherwise. -/
def carriedOf (existing : List (String × (String × String))) (pid : String) :
    String × String :=
  (alookup existing pid).getD ("", "")

theorem metaStepList_writeEntry (existing : List (String × (String × String)))
    (sname : String) (p : Paper) (m : List (String × (String × String))) :
    metaStepList m (writeEntry existing sname p)
      = dictInsert m ("papers_" ++ p.id)
          (carriedOf existing ("papers_" ++ p.id)) := by
  unfold writeEntry
  rw [metaStepList_entryJson]
  unfold carriedOf
  cases halo : alookup existing ("papers_" ++ p.id) with
  | none => rfl
  | some prev => simp [pyOr_eq]

theorem foldl_metaStep_writeEntries (existing : List (String × (String × String)))
    (sname : String) (ps : List Paper) (m : List (String × (String × String))) :
    (ps.map (fun paper => writeEntry existing sname paper)).foldl metaStepList m
      = (ps.map (fun p => "papers_" ++ p.id)).foldl
          (fun acc pid => dictInsert acc pid (carriedOf existing pid)) m := by
  induction ps generalizing m with
  | nil => rfl
  | cons hd tl ih =>
      simp only [List.map_cons, List.foldl_cons, metaStepList_writeEntry]
      exact ih _

theorem load_jarr (items : List J) :
    _load_existing_meta (some (J.jarr items)) = items.foldl metaStepList [] := rfl

theorem load_write_eq_fold (grouped : List (String × List Paper)) (file : Option J) :
    _load_existing_meta (some (write_urls_json grouped file))
      = (writtenPids grouped).foldl
          (fun acc pid => dictInsert acc pid (carriedOf (_load_existing_meta file) pid)) [] := by
  have h : ∀ (existing : List (String × (String × String)))
      (gs : List (String × List Paper)) (m : List (String × (String × String))),
      ((gs.map (fun sp => sp.2.map (fun paper => writeEntry existing sp.1 paper))).flatten).foldl
          metaStepList m
        = ((gs.map (fun sp => sp.2.map (fun p => "papers_" ++ p.id))).flatten).foldl
            (fun acc pid => dictInsert acc pid (carriedOf existing pid)) m := by
    intro existing gs
    induction gs with
    | nil => intro m; rfl
    | cons hd tl ih =>
        intro m
        simp only [List.map_cons, List.flatten_cons, List.foldl_append]
        rw [foldl_metaStep_writeEntries]
        exact ih _
  simp only [write_urls_json, load_jarr, writtenPids]
  exact h _ grouped []

theorem mem_writtenPids (grouped : List (String × List Paper)) (pid : String) :
    pid ∈ writtenPids grouped
      ↔ ∃ sp ∈ grouped, ∃ paper ∈ sp.2, pid = "papers_" ++ paper.id := by
  unfold writtenPids
  simp only [List.mem_flatten, List.mem_map]
  constructor
  · rintro ⟨l, ⟨sp, hsp, rfl⟩, hl⟩
    rcases List.mem_map.1 hl with ⟨p, hp, rfl⟩
    exact ⟨sp, hsp, p, hp, rfl⟩
  · rintro ⟨sp, hsp, p, hp, rfl⟩
    exact ⟨sp.2.map (fun q => "papers_" ++ q.id), ⟨sp, hsp, rfl⟩,
      List.mem_map.2 ⟨p, hp, rfl⟩⟩

/-- C1: Sidecar round-trip merge-preserve.  For every grouped-papers map and
every prior sidecar state, writing the sidecar with `write_urls_json` and
reading it back with `_load_existing_meta` yields, for every identifier
derived from a current paper, exactly the url/abstract stored before the
write (a blank pair for identifiers absent from the prior store), while
identifiers not derived from any current paper are absent from the re-read
store. -/
theorem sidecar_roundtrip_merge_preserve (grouped : List (String × List Paper))
    (file : Option J) (pid : String) :
    ((∃ sp ∈ grouped, ∃ paper ∈ sp.2, pid = "papers_" ++ paper.id) →
      alookup (_load_existing_meta (some (write_urls_json grouped file))) pid
        = some ((alookup (_load_existing_meta file) pid).getD ("", ""))) ∧
    ((∀ sp ∈ grouped, ∀ paper ∈ sp.2, pid ≠ "papers_" ++ paper.id) →
      alookup (_load_existing_meta (some (write_urls_json grouped file))) pid
        = none) := by
  rw [load_write_eq_fold, alookup_foldl_dictInsert_fun]
  constructor
  · intro hmem
    rw [if_pos ((mem_writtenPids grouped pid).2 hmem)]
    rfl
  · intro hnot
    have : pid ∉ writtenPids grouped := by
      intro hmem
      rcases (mem_writtenPids grouped pid).1 hmem with ⟨sp, hsp, paper, hp, heq⟩
      exact hnot sp hsp paper hp heq
    rw [if_neg this]
    rfl

/-- Concrete grouped output used to instantiate the round-trip theorem. -/
def c1Grouped : List (String × List Paper) :=
  [(("Sess A"), [⟨"0042", "sess104", "T", [], none⟩, ⟨"0007", "sess104", "U", [], none⟩])]

/-- Concrete prior sidecar state used to instantiate the round-trip theorem. -/
def c1File : Option J :=
  some (J.jarr [J.jobj [(("id"), J.jstr "papers_0042"), (("url"), J.jstr "u"),
                        (("abstract"), J.jstr "a")],
                J.jobj [(("id"), J.jstr "papers_gone"), (("url"), J.jstr "x"),
                        (("abstract"), J.jstr "y")]])

theorem sidecar_roundtrip_merge_preserve_witness :
    alookup (_load_existing_meta (some (write_urls_json c1Grouped c1File))) "papers_0042"
      = some ("u", "a") ∧
    alookup (_load_existing_meta (some (write_urls_json c1Grouped c1File))) "papers_gone"
      = none := by
  constructor
  · exact ((sidecar_roundtrip_merge_preserve c1Grouped c1File "papers_0042").1
      ⟨(("Sess A"), [⟨"0042", "sess104", "T", [], none⟩, ⟨"0007", "sess104", "U", [], none⟩]),
        by simp [c1Grouped], ⟨"0042", "sess104", "T", [], none⟩, by simp, rfl⟩).trans (by rfl)
  · exact (sidecar_roundtrip_merge_preserve c1Grouped c1File "papers_gone").2 (by
      intro sp hsp paper hp
      simp only [c1Grouped, List.mem_singleton] at hsp
      subst hsp
      simp only [List.mem_cons, List.mem_singleton] at hp
      rcases hp with rfl | rfl | h
      · decide
      · decide
      · cases h)

theorem alookup_foldl_metaStepList_of_no_id (post : List J)
    (acc : List (String × (String × String))) (pid : String)
    (hpost : ∀ fl, J.jobj fl ∈ post → alookup fl ("id") ≠ some (J.jstr pid)) :
    alookup (post.foldl metaStepList acc) pid = alookup acc pid := by
  induction post generalizing acc with
  | nil => rfl
  | cons item tl ih =>
      rw [List.foldl_cons, ih _ (fun fl hfl => hpost fl (List.mem_cons_of_mem _ hfl))]
      cases item with
      | jobj fields =>
          cases hid : alookup fields ("id") with
          | none => simp [metaStepList, hid]
          | some v =>
              cases v with
              | jstr pid' =>
                  have hne : pid ≠ pid' := by
                    intro h
                    exact hpost fields (List.mem_cons_self _ _) (h ▸ hid)
                  simp [metaStepList, hid, alookup_dictInsert_ne _ _ _ _ hne]
              | jnull => simp [metaStepList, hid]
              | jbool b => simp [metaStepList, hid]
              | jnum n => simp [metaStepList, hid]
              | jarr l => simp [metaStepList, hid]
              | jobj l => simp [metaStepList, hid]
      | jnull => simp [metaStepList]
      | jbool b => simp [metaStepList]
      | jnum n => simp [metaStepList]
      | jstr s => simp [metaStepList]
      | jarr l => simp [metaStepList]

/-- C6: Tolerant sidecar load.  `_load_existing_meta` returns the empty store
for a missing or unparseable file; it accepts the list-of-records shape
(skipping non-dict records and records without a string id) and the
map-of-records shape; and each accepted record's url/abstract fields are
coerced to `""` when missing or not a string, and taken verbatim when they
are strings. -/
theorem load_existing_meta_tolerant :
    (_load_existing_meta none = []) ∧
    (∀ its fl pid, alookup fl ("id") = some (J.jstr pid) →
      alookup (_load_existing_meta (some (J.jarr (its ++ [J.jobj fl])))) pid
        = some (jGetStr fl ("url"), jGetStr fl ("abstract"))) ∧
    (∀ kvs fl pid,
      alookup (_load_existing_meta (some (J.jobj (kvs ++ [(pid, J.jobj fl)])))) pid
        = some (jGetStr fl ("url"), jGetStr fl ("abstract"))) ∧
    (∀ fl key, alookup fl key = none → jGetStr fl key = "") ∧
    (∀ fl key j, alookup fl key = some j → (∀ s, j ≠ J.jstr s) →
      jGetStr fl key = "") ∧
    (∀ fl key s, alookup fl key = some (J.jstr s) → jGetStr fl key = s) := by
  refine ⟨rfl, ?_, ?_, ?_, ?_, ?_⟩
  · intro its fl pid hid
    rw [load_jarr, List.foldl_append, List.foldl_cons, List.foldl_nil]
    show alookup (metaStepList _ (J.jobj fl)) pid = _
    simp only [metaStepList, hid]
    exact alookup_dictInsert_self _ _ _
  · intro kvs fl pid
    show alookup (List.foldl metaStepMap [] _) pid = _
    rw [List.foldl_append, List.foldl_cons, List.foldl_nil]
    show alookup (metaStepMap _ (pid, J.jobj fl)) pid = _
    simp only [metaStepMap]
    exact alookup_dictInsert_self _ _ _
  · intro fl key h
    simp [jGetStr, h]
  · intro fl key j h hne
    cases j with
    | jstr s => exact absurd rfl (hne s)
    | jnull => simp [jGetStr, h]
    | jbool b => simp [jGetStr, h]
    | jnum n => simp [jGetStr, h]
    | jarr l => simp [jGetStr, h]
    | jobj l => simp [jGetStr, h]
  · intro fl key s h
    simp [jGetStr, h]

theorem load_existing_meta_tolerant_witness :
    alookup (_load_existing_meta (some (J.jarr
        [J.jnum 3, J.jobj [(("id"), J.jstr "papers_0042"), (("url"), J.jnum 7)]])))
      "papers_0042" = some ("", "") := by
  have h := load_existing_meta_tolerant.2.1 [J.jnum 3]
    [(("id"), J.jstr "papers_0042"), (("url"), J.jnum 7)] "papers_0042" (by rfl)
  exact h.trans (by rfl)

/-- C10: Last record wins on duplicate sidecar ids.  When the list-shaped
sidecar holds two records with the same string id and no later record uses
that id, `_load_existing_meta` maps the id to the url/abstract of the later of
the two records; the earlier record's values are overwritten. -/
theorem sidecar_duplicate_id_last_wins
    (pre mid post : List J) (f1 f2 : List (String × J)) (pid : String)
    (h1 : alookup f1 ("id") = some (J.jstr pid))
    (h2 : alookup f2 ("id") = some (J.jstr pid))
    (hpost : ∀ fl, J.jobj fl ∈ post → alookup fl ("id") ≠ some (J.jstr pid)) :
    alookup (_load_existing_meta (some (J.jarr
        (pre ++ J.jobj f1 :: mid ++ J.jobj f2 :: post)))) pid
      = some (jGetStr f2 ("url"), jGetStr f2 ("abstract")) := by
  rw [load_jarr, List.foldl_append, List.foldl_cons, List.foldl_append,
    List.foldl_cons]
  rw [alookup_foldl_metaStepList_of_no_id _ _ _ hpost]
  show alookup (metaStepList _ (J.jobj f2)) pid = _
  simp only [metaStepList, h2]
  exact alookup_dictInsert_self _ _ _

theorem sidecar_duplicate_id_last_wins_witness :
    alookup (_load_existing_meta (some (J.jarr
        [J.jobj [(("id"), J.jstr "papers_7"), (("url"), J.jstr "u1"),
                 (("abstract"), J.jstr "a1")],
         J.jobj [(("id"), J.jstr "papers_7"), (("url"), J.jstr "u2"),
                 (("abstract"), J.jstr "a2")]]))) "papers_7"
      = some ("u2", "a2") := by
  have h := sidecar_duplicate_id_last_wins [] [] []
    [(("id"), J.jstr "papers_7"), (("url"), J.jstr "u1"), (("abstract"), J.jstr "a1")]
    [(("id"), J.jstr "papers_7"), (("url"), J.jstr "u2"), (("abstract"), J.jstr "a2")]
    "papers_7" (by rfl) (by rfl) (by intro fl hfl; cases hfl)
  exact h.trans (by rfl)

/-- The ASCII characters matched by the regex class `\s` and stripped by
`str.strip()` (the markup in scope contains no exotic Unicode whitespace). -/
def isPySpace (c : Char) : Bool :=
  c = ' ' || c = '\t' || c = '\n' || c = '\r' || c = Char.ofNat 11 || c = Char.ofNat 12

/-- Python `str.strip()`: removes whitespace from both ends. -/
def pyStrip (cs : List Char) : List Char :=
  ((cs.dropWhile isPySpace).reverse.dropWhile isPySpace).reverse

/-- The value of a list of decimal digit characters. -/
def digitsToNat (ds : List Char) : Nat :=
  ds.foldl (fun a c => 10 * a + (c.toNat - 48)) 0

/-- Decodes one HTML entity reference at the position right after a `&`:
the basic named entities and decimal numeric references with a closing
semicolon.  Models the fragment of Python `html.unescape` exercised by the
conference markup; no extraction theorem depends on the table being
complete. -/
def decodeEntity (cs : List Char) : Option (Char × List Char) :=
  if (("amp;").data).isPrefixOf cs then some ('&', cs.drop 4)
  else if (("lt;").data).isPrefixOf cs then some ('<', cs.drop 3)
  else if (("gt;").data).isPrefixOf cs then some ('>', cs.drop 3)
  else if (("quot;").data).isPrefixOf cs then some ('"', cs.drop 5)
  else if (("apos;").data).isPrefixOf cs then some (Char.ofNat 39, cs.drop 5)
  else if (("nbsp;").data).isPrefixOf cs then some (Char.ofNat 160, cs.drop 5)
  else match cs with
    | '#' :: rest =>
        let ds := rest.takeWhile Char.isDigit
        match rest.dropWhile Char.isDigit with
        | ';' :: tail =>
            if ds ≠ [] then some (Char.ofNat (digitsToNat ds), tail) else none
        | _ => none
    | _ => none

/-- Scanner for `html.unescape`: replaces entity references, leaving a bare
`&` alone.  Fuel equal to the input length suffices since every step
consumes at least one input character. -/
def unescapeCore : Nat → List Char → List Char
  | 0, _ => []
  | _ + 1, [] => []
  | fuel + 1, '&' :: rest =>
      match decodeEntity rest with
      | some (c, rest') => c :: unescapeCore fuel rest'
      | none => '&' :: unescapeCore fuel rest
  | fuel + 1, c :: rest => c :: unescapeCore fuel rest

/-- Python `html.unescape` (see `unescapeCore`). -/
def unescape (s : String) : String := String.mk (unescapeCore s.data.length s.data)

def litImageTd : List Char := ("<td class=\"representative-image-td\">").data

def litTdClose : List Char := ("</td>").data

def litTitleTd : List Char := ("<td class=\"title-speakers-td\">").data

def litHref : List Char := ("href=\"").data

def litIdPapers : List Char := ("id=papers_").data

def litSess : List Char := ("&sess=sess").data

def litAClose : List Char := ("</a>").data

def litPresenterDiv : List Char := ("<div class=\"presenter-name\"").data

def litAOpen : List Char := ("<a").data

def litRepImg : List Char := ("representative-img\"").data

def litSrc : List Char := ("src=\"").data

/-- The lazy tail `(.*?)</td>` of the block pattern: the shortest prefix
followed by the literal `</td>`; returns the capture and the text after the
match. -/
def findG2 : List Char → Option (List Char × List Char)
  | [] => none
  | c :: rest =>
      if litTdClose.isPrefixOf (c :: rest) then some ([], (c :: rest).drop litTdClose.length)
      else match findG2 rest with
        | some (g2, after) => some (c :: g2, after)
        | none => none

/-- The continuation `</td>\s*<td class="title-speakers-td">(.*?)</td>` of
the block pattern at the current position; the greedy `\s*` is deterministic
because the following literal starts with a non-whitespace `<`. -/
def tryCont (cs : List Char) : Option (List Char × List Char) :=
  if litTdClose.isPrefixOf cs then
    let afterWs := (cs.drop litTdClose.length).dropWhile isPySpace
    if litTitleTd.isPrefixOf afterWs then findG2 (afterWs.drop litTitleTd.length)
    else none
  else none

/-- The first lazy group `(.*?)` of the block pattern: extends one character
at a time until the whole continuation matches. -/
def matchCont : List Char → Option (List Char × List Char × List Char)
  | [] =>
      match tryCont [] with
      | some (g2, after) => some ([], g2, after)
      | none => none
  | c :: rest =>
      match tryCont (c :: rest) with
      | some (g2, after) => some ([], g2, after)
      | none =>
          match matchCont rest with
          | some (g1, g2, after) => some (c :: g1, g2, after)
          | none => none

/-- `re.finditer` over the paper block pattern
`<td class="representative-image-td">(.*?)</td>\s*<td class="title-speakers-td">(.*?)</td>`
(DOTALL): non-overlapping matches, scanning left to right and resuming after
each match.  Every step consumes at least one character, so fuel equal to
the input length suffices. -/
def findBlocksCore : Nat → List Char → List (List Char × List Char)
  | 0, _ => []
  | _ + 1, [] => []
  | fuel + 1, c :: rest =>
      if litImageTd.isPrefixOf (c :: rest) then
        match matchCont ((c :: rest).drop litImageTd.length) with
        | some (g1, g2, after) => (g1, g2) :: findBlocksCore fuel after
        | none => findBlocksCore fuel rest
      else findBlocksCore fuel rest

/-- All paired image-cell/title-cell blocks of the markup, in match order. -/
def findBlocks (cs : List Char) : List (List Char × List Char) :=
  findBlocksCore cs.length cs

/-- Matches `id=papers_(\d+)&sess=(sess\d+)"[^>]*>([^<]+)</a>` at the
current position.  Each greedy piece (`\d+`, `[^>]*`, `[^<]+`) is
deterministic because it is followed by a character its class excludes.
Returns the paper-id digits, the session digits (group 2 after `sess`), and
the raw title capture. -/
def tryIdAt (cs : List Char) : Option (List Char × List Char × List Char) :=
  if litIdPapers.isPrefixOf cs then
    let s1 := cs.drop litIdPapers.length
    let d1 := s1.takeWhile Char.isDigit
    let s2 := s1.dropWhile Char.isDigit
    if d1 ≠ [] ∧ litSess.isPrefixOf s2 then
      let s3 := s2.drop litSess.length
      let d2 := s3.takeWhile Char.isDigit
      match s3.dropWhile Char.isDigit with
      | '"' :: s5 =>
          if d2 ≠ [] then
            match s5.dropWhile (fun ch => ch ≠ '>') with
            | '>' :: s7 =>
                let t := s7.takeWhile (fun ch => ch ≠ '<')
                let s8 := s7.dropWhile (fun ch => ch ≠ '<')
                if t ≠ [] ∧ litAClose.isPrefixOf s8 then some (d1, d2, t) else none
            | _ => none
          else none
      | _ => none
    else none
  else none

/-- The greedy `[^"]*` between `href="` and `id=papers_`: longest viable
extension first (regex backtracking order), never crossing a `"`. -/
def scanQuote : List Char → Option (List Char × List Char × List Char)
  | [] => tryIdAt []
  | c :: rest =>
      if c = '"' then tryIdAt (c :: rest)
      else
        match scanQuote rest with
        | some r => some r
        | none => tryIdAt (c :: rest)

/-- `re.search` for the anchor pattern
`href="[^"]*id=papers_(\d+)&sess=(sess\d+)"[^>]*>([^<]+)</a>` inside a title
cell: the leftmost matching start position wins. -/
def linkSearch : List Char → Option (List Char × List Char × List Char)
  | [] => none
  | c :: rest =>
      if litHref.isPrefixOf (c :: rest) then
        match scanQuote ((c :: rest).drop litHref.length) with
        | some r => some r
        | none => linkSearch rest
      else linkSearch rest

/-- Matches `<a[^>]*>([^<]+)</a>` at the current position. -/
def tryAnchor (cs : List Char) : Option (List Char × List Char) :=
  if litAOpen.isPrefixOf cs then
    match (cs.drop litAOpen.length).dropWhile (fun ch => ch ≠ '>') with
    | '>' :: s2 =>
        let t := s2.takeWhile (fun ch => ch ≠ '<')
        let s3 := s2.dropWhile (fun ch => ch ≠ '<')
        if t ≠ [] ∧ litAClose.isPrefixOf s3 then some (t, s3.drop litAClose.length)
        else none
    | _ => none
  else none

/-- The lazy `.*?` between a presenter div tag and its anchor: the nearest
following anchor wins. -/
def findAnchorFrom : List Char → Option (List Char × List Char)
  | [] => tryAnchor []
  | c :: rest =>
      match tryAnchor (c :: rest) with
      | some r => some r
      | none => findAnchorFrom rest

/-- `re.findall` over the presenter pattern
`<div class="presenter-name"[^>]*>.*?<a[^>]*>([^<]+)</a>` (DOTALL):
non-overlapping matches left to right, each resuming after its `</a>`.
Fuel equal to the input length suffices since each step consumes at least
one character. -/
def presenterNamesCore : Nat → List Char → List (List Char)
  | 0, _ => []
  | _ + 1, [] => []
  | fuel + 1, c :: rest =>
      if litPresenterDiv.isPrefixOf (c :: rest) then
        match ((c :: rest).drop litPresenterDiv.length).dropWhile (fun ch => ch ≠ '>') with
        | '>' :: s2 =>
            match findAnchorFrom s2 with
            | some (t, after) => t :: presenterNamesCore fuel after
            | none => presenterNamesCore fuel rest
        | _ => presenterNamesCore fuel rest
      else presenterNamesCore fuel rest

/-- The presenter-name captures of a title cell, in order of appearance. -/
def presenterNames (cs : List Char) : List (List Char) :=
  presenterNamesCore cs.length cs

/-- Matches `src="([^"]+)"` at the current position. -/
def trySrcAt (cs : List Char) : Option (List Char) :=
  if litSrc.isPrefixOf cs then
    let s1 := cs.drop litSrc.length
    let u := s1.takeWhile (fun ch => ch ≠ '"')
    if u ≠ [] ∧ s1.dropWhile (fun ch => ch ≠ '"') ≠ [] then some u else none
  else none

/-- The greedy `[^>]*` between `representative-img"` and `src="`: longest
viable extension first, never crossing a `>`. -/
def scanSrc : List Char → Option (List Char)
  | [] => trySrcAt []
  | c :: rest =>
      if c = '>' then trySrcAt (c :: rest)
      else
        match scanSrc rest with
        | some r => some r
        | none => trySrcAt (c :: rest)

/-- `re.search` for `representative-img"[^>]*src="([^"]+)"` in an image
cell. -/
def imgSearch : List Char → Option (List Char)
  | [] => none
  | c :: rest =>
      if litRepImg.isPrefixOf (c :: rest) then
        match scanSrc ((c :: rest).drop litRepImg.length) with
        | some u => some u
        | none => imgSearch rest
      else imgSearch rest

def IMAGE_BASE : String := "https://sa2025.conference-schedule.org"

/-- The paper record built from one matched block, given the anchor
captures. -/
def blockPaper (imgContent titleContent : List Char)
    (r : List Char × List Char × List Char) : Paper :=
  { id := String.mk r.1
    session_id := "sess" ++ String.mk r.2.1
    title := unescape (String.mk (pyStrip r.2.2))
    authors := (presenterNames titleContent).map (fun a => unescape (String.mk (pyStrip a)))
    image :=
      match imgSearch imgContent with
      | some u =>
          let s := String.mk u
          some (if s.startsWith ("/") then IMAGE_BASE ++ s else s)
      | none => none }

/-- The extraction loop: a block is skipped when its anchor pattern is
absent, then skipped when its decoded title was already seen; otherwise its
record is emitted and its title remembered. -/
def runBlocks (seen : List String) : List (List Char × List Char) → List Paper
  | [] => []
  | (ic, tc) :: bs =>
      match linkSearch tc with
      | none => runBlocks seen bs
      | some r =>
          if unescape (String.mk (pyStrip r.2.2)) ∈ seen then runBlocks seen bs
          else blockPaper ic tc r :: runBlocks (unescape (String.mk (pyStrip r.2.2)) :: seen) bs

/-- `extract_technical_papers`. -/
def extract_technical_papers (html_content : String) : List Paper :=
  runBlocks [] (findBlocks html_content.data)

/-- The record of every anchor-bearing block, with no title deduplication. -/
def allPapers (html_content : String) : List Paper :=
  (findBlocks html_content.data).filterMap
    (fun b => (linkSearch b.2).map (fun r => blockPaper b.1 b.2 r))

/-- First-occurrence deduplication by decoded title. -/
def dedupByTitle (seen : List String) : List Paper → List Paper
  | [] => []
  | p :: ps =>
      if p.title ∈ seen then dedupByTitle seen ps
      else p :: dedupByTitle (p.title :: seen) ps

theorem blockPaper_title (ic tc : List Char) (r : List Char × List Char × List Char) :
    (blockPaper ic tc r).title = unescape (String.mk (pyStrip r.2.2)) := rfl

theorem runBlocks_eq_dedup (bs : List (List Char × List Char)) (seen : List String) :
    runBlocks seen bs
      = dedupByTitle seen (bs.filterMap
          (fun b => (linkSearch b.2).map (fun r => blockPaper b.1 b.2 r))) := by
  induction bs generalizing seen with
  | nil => rfl
  | cons b bs ih =>
      obtain ⟨ic, tc⟩ := b
      cases hls : linkSearch tc with
      | none => simp [runBlocks, hls, List.filterMap_cons, ih]
      | some r =>
          simp only [runBlocks, hls, List.filterMap_cons, Option.map_some]
          by_cases hmem : unescape (String.mk (pyStrip r.2.2)) ∈ seen
          · simp [dedupByTitle, blockPaper_title, hmem, ih]
          · simp [dedupByTitle, blockPaper_title, hmem, ih]

theorem dedupByTitle_titles_nodup (ps : List Paper) (seen : List String) :
    ((dedupByTitle seen ps).map Paper.title).Nodup
      ∧ ∀ t ∈ (dedupByTitle seen ps).map Paper.title, t ∉ seen := by
  induction ps generalizing seen with
  | nil => exact ⟨List.nodup_nil, by simp [dedupByTitle]⟩
  | cons p ps ih =>
      by_cases hmem : p.title ∈ seen
      · simpa [dedupByTitle, hmem] using ih seen
      · have h2 := ih (p.title :: seen)
        have h3 : dedupByTitle seen (p :: ps) = p :: dedupByTitle (p.title :: seen) ps := by
          simp [dedupByTitle, hmem]
        rw [h3]
        constructor
        · simp only [List.map_cons, List.nodup_cons]
          exact ⟨fun hc => (h2.2 _ hc) (List.mem_cons_self _ _), h2.1⟩
        · intro t ht
          simp only [List.map_cons, List.mem_cons] at ht
          rcases ht with rfl | ht
          · exact hmem
          · exact fun hc => (h2.2 t ht) (List.mem_cons_of_mem _ hc)

/-- C4: Title deduplication.  The extractor's output is exactly the
first-occurrence-by-decoded-title deduplication of the records of all
anchor-bearing blocks in match order (so the first block with a given title
wins and first occurrences keep their relative order), and no two output
papers share a decoded title. -/
theorem extract_title_dedup (html_content : String) :
    extract_technical_papers html_content
        = dedupByTitle [] (allPapers html_content) ∧
    ((extract_technical_papers html_content).map Paper.title).Nodup := by
  constructor
  · exact runBlocks_eq_dedup _ []
  · rw [extract_technical_papers, runBlocks_eq_dedup]
    exact (dedupByTitle_titles_nodup _ []).1

theorem runBlocks_filter_anchored (bs : List (List Char × List Char))
    (seen : List String) :
    runBlocks seen (bs.filter (fun b => (linkSearch b.2).isSome))
      = runBlocks seen bs := by
  induction bs generalizing seen with
  | nil => rfl
  | cons b bs ih =>
      obtain ⟨ic, tc⟩ := b
      cases hls : linkSearch tc with
      | none => simp [List.filter_cons, hls, runBlocks, ih]
      | some r =>
          by_cases hmem : unescape (String.mk (pyStrip r.2.2)) ∈ seen
          · simp [List.filter_cons, hls, runBlocks, hmem, ih]
          · simp [List.filter_cons, hls, runBlocks, hmem, ih]

/-- C5: Missing-anchor blocks are skipped.  Removing from the matched block
list every block whose title cell has no anchor of the
`id=papers_<digits>&sess=sess<digits>` convention leaves the output of
`extract_technical_papers` unchanged: such blocks contribute no paper, and
the remaining blocks are processed exactly as before (the embedding is a
total function, so no error can occur). -/
theorem extract_skips_anchorless (html_content : String) :
    extract_technical_papers html_content
      = runBlocks [] ((findBlocks html_content.data).filter
          (fun b => (linkSearch b.2).isSome)) :=
  (runBlocks_filter_anchored _ []).symm

theorem mem_runBlocks (bs : List (List Char × List Char)) (seen : List String)
    (p : Paper) (hp : p ∈ runBlocks seen bs) :
    ∃ ic tc r, (ic, tc) ∈ bs ∧ linkSearch tc = some r ∧ p = blockPaper ic tc r := by
  induction bs generalizing seen with
  | nil => cases hp
  | cons b bs ih =>
      obtain ⟨ic, tc⟩ := b
      cases hls : linkSearch tc with
      | none =>
          simp only [runBlocks, hls] at hp
          obtain ⟨ic', tc', r', hb, hl, he⟩ := ih seen hp
          exact ⟨ic', tc', r', List.mem_cons_of_mem _ hb, hl, he⟩
      | some r =>
          simp only [runBlocks, hls] at hp
          split at hp
          · obtain ⟨ic', tc', r', hb, hl, he⟩ := ih seen hp
            exact ⟨ic', tc', r', List.mem_cons_of_mem _ hb, hl, he⟩
          · rcases List.mem_cons.1 hp with rfl | hp'
            · exact ⟨ic, tc, r, List.mem_cons_self _ _, hls, rfl⟩
            · obtain ⟨ic', tc', r', hb, hl, he⟩ := ih _ hp'
              exact ⟨ic', tc', r', List.mem_cons_of_mem _ hb, hl, he⟩

/-- C8: Author order preservation.  Every extracted paper comes from a
matched block whose anchor captures give its id, session id and decoded
title, and its author list is, in order, the decoded presenter-name
captures of that block's title cell. -/
theorem extract_author_order (html_content : String) (p : Paper)
    (hp : p ∈ extract_technical_papers html_content) :
    ∃ ic tc r, (ic, tc) ∈ findBlocks html_content.data ∧
      linkSearch tc = some r ∧
      p.id = String.mk r.1 ∧
      p.session_id = "sess" ++ String.mk r.2.1 ∧
      p.title = unescape (String.mk (pyStrip r.2.2)) ∧
      p.authors = (presenterNames tc).map (fun a => unescape (String.mk (pyStrip a))) := by
  obtain ⟨ic, tc, r, hb, hls, rfl⟩ := mem_runBlocks _ _ p hp
  exact ⟨ic, tc, r, hb, hls, rfl, rfl, rfl, rfl⟩

/-- Concrete markup used to instantiate the author-order theorem. -/
def c8Html : String :=
  "<td class=\"representative-image-td\">i</td><td class=\"title-speakers-td\"><a href=\"x?id=papers_1&sess=sess2\">T</a><div class=\"presenter-name\"><a>A</a></div><div class=\"presenter-name\"><a>B</a></div></td>"

/-- The paper extracted from `c8Html`. -/
def c8Paper : Paper := ⟨"1", "sess2", "T", ["A", "B"], none⟩

theorem extract_author_order_witness :
    ∃ ic tc r, (ic, tc) ∈ findBlocks c8Html.data ∧
      linkSearch tc = some r ∧
      c8Paper.id = String.mk r.1 ∧
      c8Paper.session_id = "sess" ++ String.mk r.2.1 ∧
      c8Paper.title = unescape (String.mk (pyStrip r.2.2)) ∧
      c8Paper.authors = (presenterNames tc).map (fun a => unescape (String.mk (pyStrip a))) :=
  extract_author_order c8Html c8Paper (by decide)

/-- The static session-id → display-name table of `group_papers_by_session`. -/
def SESSION_NAMES : List (String × String) :=
  [(("sess104"), ("3D Reconstruction & Intelligent Geometry")),
   (("sess105"), ("Dynamic Generative Video: From Synthesis to Real-Time Editing")),
   (("sess106"), ("Global Illumination & Real-Time Rendering")),
   (("sess107"), ("High-Performance Simulation Algorithms")),
   (("sess108"), ("Mesh Processing")),
   (("sess109"), ("Camera Control and Directed Storytelling in Video Generation")),
   (("sess110"), ("Material & Texture Modeling")),
   (("sess111"), ("Neural & Implicit Representations for Geometry and Physics")),
   (("sess112"), ("Creating Digital Humans")),
   (("sess113"), ("Smart Process Planning for Manufacturing")),
   (("sess114"), ("Visibility & Real-Time Rendering")),
   (("sess115"), ("Physically Based Simulation & Dynamic Environments")),
   (("sess116"), ("Audio-Driven Facial and Portrait Animation")),
   (("sess117"), ("Computational Design & Fabricability")),
   (("sess118"), ("Computational Photography & Cameras")),
   (("sess119"), ("Sampling, Reconstruction & Variance Reduction")),
   (("sess120"), ("Generative 3D Shape Synthesis")),
   (("sess121"), ("Image Restoration, Editing & Enhancement")),
   (("sess122"), ("Differentiable Rendering & Applications")),
   (("sess123"), ("Perception and Performance in AR/VR Systems")),
   (("sess124"), ("4D Gaussian Splatting for Dynamic Scene Reconstruction")),
   (("sess125"), ("Garment & Cloth Modeling, Simulation and Rendering")),
   (("sess126"), ("3D Reconstruction & Rendering")),
   (("sess127"), ("Animation, Simulation & Deformation")),
   (("sess128"), ("Neural Fields and Surface Reconstruction")),
   (("sess129"), ("Vector Graphics & Sketches")),
   (("sess130"), ("Intelligent CAD: B-Reps, NURBs & Splines")),
   (("sess131"), ("It\x27s All About the Motion")),
   (("sess132"), ("Compositional and Layout-Guided Image Synthesis")),
   (("sess133"), ("Computational Design & Geometry")),
   (("sess134"), ("Hair & Faces")),
   (("sess135"), ("Differentiable Physics and Fabrication-Aware Optimization")),
   (("sess136"), ("Generative Scenes & Panoramas")),
   (("sess137"), ("Human & Robot Animation & Behavior")),
   (("sess138"), ("4D & Dynamic Scene Generation and Reconstruction")),
   (("sess139"), ("Advanced Light Transport & PDE Solvers")),
   (("sess140"), ("Efficient and Robust Algorithms for Geometric Computing")),
   (("sess141"), ("3D Reconstruction & View Synthesis")),
   (("sess142"), ("Animating Images, Sketches and Text")),
   (("sess143"), ("Real-Time Rendering & System Optimization")),
   (("sess144"), ("Cameras, Sensors, and Acquisition")),
   (("sess145"), ("Generative 3D Modeling")),
   (("sess146"), ("Motion Transfer & Control")),
   (("sess147"), ("Advanced Fluid and Multiphase Simulation")),
   (("sess148"), ("Material & Reflectance Modeling")),
   (("sess149"), ("Objects in Parts & Articulation")),
   (("sess150"), ("Text-to-Image & Customization")),
   (("sess151"), ("Expressive and Structured Gaussian Representations")),
   (("sess152"), ("Generative Synthesis, Editing & Customization")),
   (("sess153"), ("Human Motion Synthesis & Interaction")),
   (("sess154"), ("Shape Abstraction and Structural Analysis")),
   (("sess155"), ("Advanced Representations and Rendering for 3D Scenes")),
   (("sess156"), ("Diffusion-Based Image Editing & Manipulation")),
   (("sess159"), ("Geometry Processing & Representations"))]

/-- Python `s.replace("sess", "")`: drops the non-overlapping occurrences of
`sess`, left to right.  Fuel equal to the input length suffices since every
step consumes at least one character. -/
def replSessCore : Nat → List Char → List Char
  | 0, _ => []
  | _ + 1, [] => []
  | fuel + 1, c :: cs =>
      if c = 's' ∧ cs.take 3 = [('e' : Char), ('s' : Char), ('s' : Char)] then
        replSessCore fuel (cs.drop 3)
      else c :: replSessCore fuel cs

def replSess (cs : List Char) : List Char := replSessCore cs.length cs

/-- Python `int(s)` restricted to the decimal digit strings this program
feeds it; `none` models the `ValueError` raised on anything else. -/
def pyInt? (cs : List Char) : Option Nat :=
  if cs ≠ [] ∧ cs.all Char.isDigit then some (digitsToNat cs) else none

/-- The sort key `int(session_id.replace("sess", ""))`. -/
def sessNum? (s : String) : Option Nat := pyInt? (replSess s.data)

/-- `sess` followed by at least one digit: the shape the anchor regex
guarantees for extracted session ids. -/
def isSessId (s : String) : Bool :=
  s.data.take 4 = [('s' : Char), ('e' : Char), ('s' : Char), ('s' : Char)]
    && s.data.drop 4 ≠ [] && (s.data.drop 4).all Char.isDigit

/-- The grouping loop body: append the paper to its session's bucket,
creating the bucket at the end on first sight (`defaultdict(list)`). -/
def addToGroup : List (String × List Paper) → Paper → List (String × List Paper)
  | [], p => [(p.session_id, [p])]
  | (k, ps) :: rest, p =>
      if k = p.session_id then (k, ps ++ [p]) :: rest
      else (k, ps) :: addToGroup rest p

/-- Grouping by session id, buckets in first-appearance order. -/
def buildGroups (papers : List Paper) : List (String × List Paper) :=
  papers.foldl addToGroup []

/-- The numeric sort key of every bucket; `none` when any key computation
would raise. -/
def keyed? : List (String × List Paper) → Option (List (Nat × String × List Paper))
  | [] => some []
  | (sid, ps) :: rest =>
      match sessNum? sid, keyed? rest with
      | some n, some k => some ((n, sid, ps) :: k)
      | _, _ => none

/-- Stable insertion for `sorted`: the new element goes after every element
whose key does not exceed its own, so equal keys keep their original
order. -/
def insertByKey (x : Nat × String × List Paper) :
    List (Nat × String × List Paper) → List (Nat × String × List Paper)
  | [] => [x]
  | y :: ys => if y.1 ≤ x.1 then y :: insertByKey x ys else x :: y :: ys

/-- Python `sorted` by the numeric session key (stable). -/
def sortByKey (l : List (Nat × String × List Paper)) :
    List (Nat × String × List Paper) :=
  l.foldl (fun acc x => insertByKey x acc) []

/-- One step of the three-tier naming loop: static table name, synthesized
`Session {n}` name for an unmapped bucket of at least three papers, or
deferral of the bucket's papers to the catch-all list. -/
def tierStep (acc : List (String × List Paper) × List Paper)
    (e : Nat × String × List Paper) : List (String × List Paper) × List Paper :=
  match alookup SESSION_NAMES e.2.1 with
  | some nm => (dictInsert acc.1 nm e.2.2, acc.2)
  | none =>
      if 3 ≤ e.2.2.length then
        (dictInsert acc.1 ("Session " ++ toString e.1) e.2.2, acc.2)
      else (acc.1, acc.2 ++ e.2.2)

/-- `group_papers_by_session`: groups papers by session id, sorts buckets by
numeric id, applies the three-tier naming policy, and appends the non-empty
catch-all bucket at the end.  Returns `none` when a key conversion would
raise. -/
def group_papers_by_session (papers : List Paper) :
    Option (List (String × List Paper)) :=
  match keyed? (buildGroups papers) with
  | none => none
  | some keyed =>
      let srt := sortByKey keyed
      let rm := srt.foldl tierStep ([], [])
      some (if rm.2 = [] then rm.1 else dictInsert rm.1 ("Other Papers") rm.2)

/-- The tier-name decision for one bucket: `none` means the bucket is
deferred to the catch-all. -/
def tierName (n : Nat) (sid : String) (ps : List Paper) : Option String :=
  match alookup SESSION_NAMES sid with
  | some nm => some nm
  | none => if 3 ≤ ps.length then some ("Session " ++ toString n) else none

/-- The named buckets produced from the sorted grouping, in order. -/
def namedOf (sk : List (Nat × String × List Paper)) : List (String × List Paper) :=
  sk.filterMap (fun e => (tierName e.1 e.2.1 e.2.2).map (fun nm => (nm, e.2.2)))

/-- The catch-all papers, in the order the loop collects them. -/
def miscOf (sk : List (Nat × String × List Paper)) : List Paper :=
  ((sk.filter (fun e => (tierName e.1 e.2.1 e.2.2).isNone)).map (fun e => e.2.2)).flatten

/-- The trailing catch-all bucket, present only when non-empty. -/
def otherOf (sk : List (Nat × String × List Paper)) : List (String × List Paper) :=
  if miscOf sk = [] then [] else [(("Other Papers"), miscOf sk)]

/-- The digit fold with an explicit accumulator. -/
def valAux (a : Nat) (ds : List Char) : Nat :=
  ds.foldl (fun b c => 10 * b + (c.toNat - 48)) a

theorem digitsToNat_eq_valAux (ds : List Char) : digitsToNat ds = valAux 0 ds := rfl

theorem valAux_cons (a : Nat) (c : Char) (ds : List Char) :
    valAux a (c :: ds) = valAux (10 * a + (c.toNat - 48)) ds := rfl

theorem digitChar_toNat (d : Nat) (h : d < 10) : (Nat.digitChar d).toNat - 48 = d := by
  interval_cases d <;> decide

theorem toDigitsCore_valAux (fuel : Nat) :
    ∀ n ds a, n < 10 ^ (fuel + 1) →
      valAux a (Nat.toDigitsCore 10 (fuel + 1) n ds)
        = valAux (a * 10 ^ (Nat.log 10 n + 1) + n) ds := by
  induction fuel with
  | zero =>
      intro n ds a h
      have h10 : n < 10 := by simpa using h
      have hlog : Nat.log 10 n = 0 := Nat.log_eq_zero_iff.2 (Or.inl h10)
      have hz : n / 10 = 0 := Nat.div_eq_of_lt h10
      rw [Nat.toDigitsCore, if_pos hz, valAux_cons, hlog]
      rw [Nat.mod_eq_of_lt h10, digitChar_toNat n h10]
      ring_nf
  | succ fuel ih =>
      intro n ds a h
      by_cases hz : n / 10 = 0
      · have h10 : n < 10 := (Nat.div_eq_zero_iff (by norm_num)).1 hz
        have hlog : Nat.log 10 n = 0 := Nat.log_eq_zero_iff.2 (Or.inl h10)
        rw [Nat.toDigitsCore, if_pos hz, valAux_cons, hlog]
        rw [Nat.mod_eq_of_lt h10, digitChar_toNat n h10]
        ring_nf
      · have h10 : 10 ≤ n := by
          by_contra hlt
          exact hz (Nat.div_eq_of_lt (by omega))
        have hdiv : n / 10 < 10 ^ (fuel + 1) := by
          have hmul : n < 10 * 10 ^ (fuel + 1) := by
            calc n < 10 ^ (fuel + 1 + 1) := h
            _ = 10 * 10 ^ (fuel + 1) := by ring
          exact Nat.div_lt_of_lt_mul hmul
        rw [Nat.toDigitsCore, if_neg hz, ih (n / 10) _ a hdiv, valAux_cons]
        have hmod : (Nat.digitChar (n % 10)).toNat - 48 = n % 10 :=
          digitChar_toNat _ (Nat.mod_lt n (by norm_num))
        rw [hmod]
        have hlog : Nat.log 10 n = Nat.log 10 (n / 10) + 1 := by
          have h1 : Nat.log 10 (n / 10) = Nat.log 10 n - 1 := Nat.log_div_base 10 n
          have h2 : Nat.log 10 n ≠ 0 := by
            intro hc
            rcases Nat.log_eq_zero_iff.1 hc with hlt | hb
            · omega
            · omega
          omega
        rw [hlog]
        have harith : 10 * (a * 10 ^ (Nat.log 10 (n / 10) + 1) + n / 10) + n % 10
            = a * 10 ^ (Nat.log 10 (n / 10) + 1 + 1) + n := by
          have hdm : 10 * (n / 10) + n % 10 = n := Nat.div_add_mod n 10
          ring_nf
          ring_nf at hdm
          omega
        rw [harith]

theorem digitsToNat_toDigits (n : Nat) : digitsToNat (Nat.toDigits 10 n) = n := by
  have hb : n < 10 ^ (n + 1) := by
    calc n < 2 ^ n := Nat.lt_two_pow n
    _ ≤ 10 ^ n := Nat.pow_le_pow_left (by norm_num) n
    _ < 10 ^ (n + 1) := Nat.pow_lt_pow_succ (by norm_num)
  rw [digitsToNat_eq_valAux, Nat.toDigits, toDigitsCore_valAux n n [] 0 hb]
  simp [valAux]

theorem natRepr_injective (m n : Nat) (h : Nat.repr m = Nat.repr n) : m = n := by
  have hd : Nat.toDigits 10 m = Nat.toDigits 10 n := by
    have h2 := congrArg String.data h
    simpa [Nat.repr, List.asString] using h2
  have h3 := congrArg digitsToNat hd
  rwa [digitsToNat_toDigits, digitsToNat_toDigits] at h3

theorem natToString_injective (m n : Nat) (h : toString m = toString n) : m = n :=
  natRepr_injective m n h

theorem sessionName_injective (m n : Nat)
    (h : "Session " ++ toString m = "Session " ++ toString n) : m = n := by
  have hd := congrArg String.data h
  simp only [String.data_append] at hd
  exact natToString_injective m n (String.ext (List.append_cancel_left hd))

/-- Whether a string starts with `Session `. -/
def hasSessionPrefix (s : String) : Bool := (("Session ").data).isPrefixOf s.data

theorem hasSessionPrefix_append (s : String) :
    hasSessionPrefix ("Session " ++ s) = true := by
  simp [hasSessionPrefix, String.data_append]

theorem table_values_nodup : (SESSION_NAMES.map Prod.snd).Nodup := by decide

theorem table_no_session_marker :
    SESSION_NAMES.all (fun kv => !hasSessionPrefix kv.2) = true := by decide

theorem table_no_other :
    SESSION_NAMES.all (fun kv => kv.2 != "Other Papers") = true := by decide

theorem other_no_session_marker : hasSessionPrefix ("Other Papers") = false := by decide

theorem alookup_mem {α β : Type} [DecidableEq α] (l : List (α × β)) (k : α) (v : β)
    (h : alookup l k = some v) : (k, v) ∈ l := by
  induction l with
  | nil => cases h
  | cons hd tl ih =>
      obtain ⟨k', v'⟩ := hd
      by_cases he : k' = k
      · subst he
        simp only [alookup, if_pos rfl] at h
        injection h with h
        subst h
        exact List.mem_cons_self _ _
      · simp only [alookup, if_neg he] at h
        exact List.mem_cons_of_mem _ (ih h)

theorem alookup_eq_none {α β : Type} [DecidableEq α] (l : List (α × β)) (k : α)
    (h : k ∉ l.map Prod.fst) : alookup l k = none := by
  induction l with
  | nil => rfl
  | cons hd tl ih =>
      obtain ⟨k', v'⟩ := hd
      simp only [List.map_cons, List.mem_cons] at h
      push_neg at h
      have hne : ¬ k' = k := fun he => h.1 he.symm
      simp only [alookup, if_neg hne]
      exact ih h.2

theorem alookup_append_right {α β : Type} [DecidableEq α] (l1 l2 : List (α × β))
    (k : α) (h : k ∉ l1.map Prod.fst) :
    alookup (l1 ++ l2) k = alookup l2 k := by
  induction l1 with
  | nil => rfl
  | cons hd tl ih =>
      obtain ⟨k', v'⟩ := hd
      simp only [List.map_cons, List.mem_cons] at h
      push_neg at h
      have hne : ¬ k' = k := fun he => h.1 he.symm
      simp only [List.cons_append, alookup, if_neg hne]
      exact ih h.2

theorem alookup_eq_of_mem_of_nodup {α β : Type} [DecidableEq α]
    (l : List (α × β)) (k : α) (v : β)
    (hm : (k, v) ∈ l) (hn : (l.map Prod.fst).Nodup) : alookup l k = some v := by
  induction l with
  | nil => cases hm
  | cons hd tl ih =>
      obtain ⟨k', v'⟩ := hd
      simp only [List.map_cons, List.nodup_cons] at hn
      rcases List.mem_cons.1 hm with he | hm'
      · injection he with he1 he2
        subst he1
        simp [alookup, he2.symm]
      · have hkne : k' ≠ k := by
          intro he
          subst he
          exact hn.1 (List.mem_map.2 ⟨(k', v), hm', rfl⟩)
        simp only [alookup, if_neg hkne]
        exact ih hm' hn.2

theorem mem_of_snd_nodup {α β : Type} (l : List (α × β))
    (hn : (l.map Prod.snd).Nodup) (k k' : α) (v : β)
    (h1 : (k, v) ∈ l) (h2 : (k', v) ∈ l) : k = k' := by
  induction l with
  | nil => cases h1
  | cons hd tl ih =>
      simp only [List.map_cons, List.nodup_cons] at hn
      rcases List.mem_cons.1 h1 with he1 | h1'
      · rcases List.mem_cons.1 h2 with he2 | h2'
        · rw [← he2] at he1
          exact congrArg Prod.fst he1
        · exfalso
          apply hn.1
          have : hd.2 = v := by rw [← he1]
          exact this ▸ List.mem_map.2 ⟨(k', v), h2', rfl⟩
      · rcases List.mem_cons.1 h2 with he2 | h2'
        · exfalso
          apply hn.1
          have : hd.2 = v := by rw [← he2]
          exact this ▸ List.mem_map.2 ⟨(k, v), h1', rfl⟩
        · exact ih hn.2 h1' h2'

theorem nodup_filterMap_pairwise {α β : Type} (f : α → Option β) (l : List α)
    (h : l.Pairwise (fun a b => ∀ c, f a = some c → f b ≠ some c)) :
    (l.filterMap f).Nodup := by
  induction l with
  | nil => simp
  | cons a tl ih =>
      rcases List.pairwise_cons.1 h with ⟨ha, htl⟩
      cases hf : f a with
      | none => simpa [List.filterMap_cons, hf] using ih htl
      | some c =>
          simp only [List.filterMap_cons, hf]
          refine List.nodup_cons.2 ⟨?_, ih htl⟩
          intro hc
          rcases List.mem_filterMap.1 hc with ⟨b, hb, hfb⟩
          exact ha b hb c hf hfb

theorem replSessCore_digits (fuel : Nat) :
    ∀ cs : List Char, cs.length ≤ fuel → cs.all Char.isDigit → replSessCore fuel cs = cs := by
  induction fuel with
  | zero =>
      intro cs h _
      rw [List.eq_nil_of_length_eq_zero (Nat.le_zero.1 h)]
      rfl
  | succ fuel ih =>
      intro cs hlen hdig
      cases cs with
      | nil => rfl
      | cons c cs' =>
          simp only [List.all_cons, Bool.and_eq_true] at hdig
          have hcs : c ≠ 's' := by
            intro he
            rw [he] at hdig
            exact absurd hdig.1 (by decide)
          rw [replSessCore, if_neg (fun hand => hcs hand.1)]
          simp only [List.length_cons, Nat.succ_le_succ_iff] at hlen
          rw [ih cs' hlen hdig.2]

theorem sessNum?_of_isSessId (s : String) (h : isSessId s = true) :
    sessNum? s = some (digitsToNat (s.data.drop 4)) := by
  unfold isSessId at h
  simp only [Bool.and_eq_true, decide_eq_true_eq] at h
  obtain ⟨⟨htake, hne⟩, hdig⟩ := h
  have hs : s.data = 's' :: 'e' :: 's' :: 's' :: s.data.drop 4 := by
    conv_lhs => rw [← List.take_append_drop 4 s.data]
    rw [htake]
    rfl
  unfold sessNum? replSess
  rw [hs]
  simp only [List.length_cons]
  rw [replSessCore, if_pos (by simp)]
  simp only [List.drop_succ_cons, List.drop_zero]
  rw [replSessCore_digits _ _ (by omega) hdig]
  unfold pyInt?
  rw [if_pos ⟨hne, hdig⟩]

theorem isSessId_sess_append (d : List Char) (h1 : d ≠ []) (h2 : d.all Char.isDigit) :
    isSessId ("sess" ++ String.mk d) = true := by
  have hd : ("sess" ++ String.mk d).data = 's' :: 'e' :: 's' :: 's' :: d := by
    rw [String.data_append]
    rfl
  unfold isSessId
  rw [hd]
  simp [h1, h2]

theorem addToGroup_keys (m : List (String × List Paper)) (p : Paper) :
    (addToGroup m p).map Prod.fst
      = if p.session_id ∈ m.map Prod.fst then m.map Prod.fst
        else m.map Prod.fst ++ [p.session_id] := by
  induction m with
  | nil => simp [addToGroup]
  | cons hd tl ih =>
      obtain ⟨k, ps⟩ := hd
      by_cases h : k = p.session_id
      · subst h
        simp [addToGroup]
      · by_cases hm : p.session_id ∈ tl.map Prod.fst
        · simp [addToGroup, h, ih, hm, Ne.symm h]
        · simp [addToGroup, h, ih, hm, Ne.symm h]

theorem addToGroup_inv (papers : List Paper) (p : Paper) (hp : p ∈ papers) :
    ∀ m : List (String × List Paper),
      ((m.map Prod.fst).Nodup ∧
        ∀ sb ∈ m, sb.2 ≠ [] ∧ ∀ q ∈ sb.2, q.session_id = sb.1 ∧ q ∈ papers) →
      ((addToGroup m p).map Prod.fst).Nodup ∧
        ∀ sb ∈ addToGroup m p, sb.2 ≠ [] ∧ ∀ q ∈ sb.2, q.session_id = sb.1 ∧ q ∈ papers := by
  intro m hinv
  obtain ⟨h1, h2⟩ := hinv
  constructor
  · rw [addToGroup_keys]
    by_cases hm : p.session_id ∈ m.map Prod.fst
    · simpa [hm] using h1
    · simp only [hm, if_false]
      simp [List.nodup_append, h1, hm]
  · clear h1
    induction m with
    | nil =>
        intro sb hsb
        simp only [addToGroup, List.mem_singleton] at hsb
        subst hsb
        exact ⟨by simp, by simp [hp]⟩
    | cons hd tl ih =>
        obtain ⟨k, ps⟩ := hd
        by_cases h : k = p.session_id
        · subst h
          intro sb hsb
          have hsb2 : sb = (p.session_id, ps ++ [p]) ∨ sb ∈ tl := by
            simpa [addToGroup] using hsb
          rcases hsb2 with heq | hsb2
          · rw [heq]
            refine ⟨by simp, ?_⟩
            intro q hq
            rcases List.mem_append.1 hq with hq | hq
            · exact (h2 (p.session_id, ps) (List.mem_cons_self _ _)).2 q hq
            · rcases List.mem_singleton.1 hq with rfl
              exact ⟨rfl, hp⟩
          · exact h2 _ (List.mem_cons_of_mem _ hsb2)
        · intro sb hsb
          simp only [addToGroup, if_neg h, List.mem_cons] at hsb
          rcases hsb with rfl | hsb
          · exact h2 _ (List.mem_cons_self _ _)
          · exact ih (fun sb' hsb' => h2 sb' (List.mem_cons_of_mem _ hsb')) sb hsb

theorem buildGroups_inv (papers : List Paper) :
    ((buildGroups papers).map Prod.fst).Nodup ∧
      ∀ sb ∈ buildGroups papers,
        sb.2 ≠ [] ∧ ∀ q ∈ sb.2, q.session_id = sb.1 ∧ q ∈ papers := by
  have h : ∀ (l : List Paper) (acc : List (String × List Paper)),
      (∀ p ∈ l, p ∈ papers) →
      ((acc.map Prod.fst).Nodup ∧
        ∀ sb ∈ acc, sb.2 ≠ [] ∧ ∀ q ∈ sb.2, q.session_id = sb.1 ∧ q ∈ papers) →
      (((l.foldl addToGroup acc).map Prod.fst).Nodup ∧
        ∀ sb ∈ l.foldl addToGroup acc,
          sb.2 ≠ [] ∧ ∀ q ∈ sb.2, q.session_id = sb.1 ∧ q ∈ papers) := by
    intro l
    induction l with
    | nil => intro acc _ hinv; exact hinv
    | cons p tl ih =>
        intro acc hl hinv
        simp only [List.foldl_cons]
        exact ih _ (fun q hq => hl q (List.mem_cons_of_mem _ hq))
          (addToGroup_inv papers p (hl p (List.mem_cons_self _ _)) acc hinv)
  exact h papers [] (fun _ hq => hq) ⟨List.nodup_nil, by simp⟩

theorem keyed?_spec (gs : List (String × List Paper)) :
    ∀ k, keyed? gs = some k →
      k.map (fun e => (e.2.1, e.2.2)) = gs ∧ ∀ e ∈ k, sessNum? e.2.1 = some e.1 := by
  induction gs with
  | nil =>
      intro k h
      simp only [keyed?] at h
      injection h with h
      subst h
      simp
  | cons hd tl ih =>
      obtain ⟨sid, ps⟩ := hd
      intro k h
      simp only [keyed?] at h
      cases hs : sessNum? sid with
      | none => rw [hs] at h; cases h
      | some n =>
          rw [hs] at h
          cases hk : keyed? tl with
          | none => rw [hk] at h; cases h
          | some k' =>
              rw [hk] at h
              injection h with h
              subst h
              obtain ⟨ih1, ih2⟩ := ih k' hk
              refine ⟨by simp [ih1], ?_⟩
              intro e he
              rcases List.mem_cons.1 he with rfl | he
              · exact hs
              · exact ih2 e he

theorem keyed?_isSome (gs : List (String × List Paper))
    (h : ∀ sb ∈ gs, (sessNum? sb.1).isSome) : (keyed? gs).isSome := by
  induction gs with
  | nil => rfl
  | cons hd tl ih =>
      obtain ⟨sid, ps⟩ := hd
      have hs := h (sid, ps) (List.mem_cons_self _ _)
      obtain ⟨n, hn⟩ := Option.isSome_iff_exists.1 hs
      have ht := ih (fun sb hsb => h sb (List.mem_cons_of_mem _ hsb))
      obtain ⟨k, hk⟩ := Option.isSome_iff_exists.1 ht
      simp [keyed?, hn, hk]

theorem insertByKey_perm (x : Nat × String × List Paper)
    (l : List (Nat × String × List Paper)) : List.Perm (insertByKey x l) (x :: l) := by
  induction l with
  | nil => exact List.Perm.refl _
  | cons y ys ih =>
      by_cases h : y.1 ≤ x.1
      · simp only [insertByKey, if_pos h]
        exact (ih.cons y).trans (List.Perm.swap x y ys)
      · simp only [insertByKey, if_neg h]
        exact List.Perm.refl _

theorem sortByKey_perm (l : List (Nat × String × List Paper)) :
    List.Perm (sortByKey l) l := by
  have h : ∀ (l acc : List (Nat × String × List Paper)),
      List.Perm (l.foldl (fun a x => insertByKey x a) acc) (acc ++ l) := by
    intro l
    induction l with
    | nil => intro acc; simp
    | cons x xs ih =>
        intro acc
        simp only [List.foldl_cons]
        refine (ih (insertByKey x acc)).trans ?_
        refine ((insertByKey_perm x acc).append_right xs).trans ?_
        exact List.perm_middle.symm
  simpa [sortByKey] using h l []

theorem pairwise_insertByKey (x : Nat × String × List Paper)
    (l : List (Nat × String × List Paper))
    (h : l.Pairwise (fun a b => a.1 ≤ b.1)) :
    (insertByKey x l).Pairwise (fun a b => a.1 ≤ b.1) := by
  induction l with
  | nil => simp [insertByKey]
  | cons y ys ih =>
      rcases List.pairwise_cons.1 h with ⟨hy, hys⟩
      by_cases hle : y.1 ≤ x.1
      · simp only [insertByKey, if_pos hle]
        refine List.pairwise_cons.2 ⟨?_, ih hys⟩
        intro z hz
        have hz2 : z = x ∨ z ∈ ys := List.mem_cons.1 (((insertByKey_perm x ys).mem_iff).1 hz)
        rcases hz2 with rfl | hz2
        · exact hle
        · exact hy z hz2
      · simp only [insertByKey, if_neg hle]
        have hxy : x.1 ≤ y.1 := Nat.le_of_not_le hle
        refine List.pairwise_cons.2 ⟨?_, h⟩
        intro z hz
        rcases List.mem_cons.1 hz with rfl | hz
        · exact hxy
        · exact hxy.trans (hy z hz)

theorem sortByKey_pairwise (l : List (Nat × String × List Paper)) :
    (sortByKey l).Pairwise (fun a b => a.1 ≤ b.1) := by
  have h : ∀ (l acc : List (Nat × String × List Paper)),
      acc.Pairwise (fun a b => a.1 ≤ b.1) →
      (l.foldl (fun a x => insertByKey x a) acc).Pairwise (fun a b => a.1 ≤ b.1) := by
    intro l
    induction l with
    | nil => intro acc h; exact h
    | cons x xs ih =>
        intro acc hacc
        simp only [List.foldl_cons]
        exact ih _ (pairwise_insertByKey x acc hacc)
  exact h l [] List.Pairwise.nil

theorem tierStep_eq (acc : List (String × List Paper) × List Paper)
    (e : Nat × String × List Paper) :
    tierStep acc e
      = (match tierName e.1 e.2.1 e.2.2 with
         | some nm => (dictInsert acc.1 nm e.2.2, acc.2)
         | none => (acc.1, acc.2 ++ e.2.2)) := by
  unfold tierStep tierName
  cases alookup SESSION_NAMES e.2.1 with
  | some nm => rfl
  | none =>
      by_cases h : 3 ≤ e.2.2.length
      · simp [h]
      · simp [h]

theorem foldl_tierStep_eq (sk : List (Nat × String × List Paper)) :
    ∀ (res : List (String × List Paper)) (misc : List Paper),
      sk.foldl tierStep (res, misc)
        = ((namedOf sk).foldl (fun r nb => dictInsert r nb.1 nb.2) res,
           misc ++ miscOf sk) := by
  induction sk with
  | nil =>
      intro res misc
      simp [namedOf, miscOf]
  | cons e tl ih =>
      intro res misc
      simp only [List.foldl_cons, tierStep_eq]
      cases ht : tierName e.1 e.2.1 e.2.2 with
      | some nm =>
          rw [ih]
          simp [namedOf, miscOf, List.filterMap_cons, List.filter_cons, ht]
      | none =>
          rw [ih]
          simp [namedOf, miscOf, List.filterMap_cons, List.filter_cons, ht]

theorem dictInsert_eq_append {α β : Type} [DecidableEq α]
    (m : List (α × β)) (k : α) (v : β) (h : k ∉ m.map Prod.fst) :
    dictInsert m k v = m ++ [(k, v)] := by
  induction m with
  | nil => rfl
  | cons hd tl ih =>
      obtain ⟨k', v'⟩ := hd
      simp only [List.map_cons, List.mem_cons] at h
      push_neg at h
      have hne : ¬ k' = k := fun he => h.1 he.symm
      simp only [dictInsert, if_neg hne, List.cons_append]
      rw [ih h.2]

theorem foldl_dictInsert_append {α β : Type} [DecidableEq α]
    (l : List (α × β)) :
    ∀ m : List (α × β), (l.map Prod.fst).Nodup →
      (∀ k ∈ l.map Prod.fst, k ∉ m.map Prod.fst) →
      l.foldl (fun r nb => dictInsert r nb.1 nb.2) m = m ++ l := by
  induction l with
  | nil => intro m _ _; simp
  | cons nb tl ih =>
      intro m hn hd
      simp only [List.map_cons, List.nodup_cons] at hn
      simp only [List.foldl_cons]
      rw [dictInsert_eq_append m nb.1 nb.2
        (hd nb.1 (by simp))]
      rw [ih (m ++ [(nb.1, nb.2)]) hn.2 ?_]
      · simp
      · intro k hk
        simp only [List.map_append, List.map_cons, List.map_nil, List.mem_append,
          List.mem_singleton]
        push_neg
        refine ⟨hd k (by simp [hk]), ?_⟩
        intro he
        rw [he] at hk
        exact hn.1 hk

theorem namedOf_keys (sk : List (Nat × String × List Paper)) :
    (namedOf sk).map Prod.fst = sk.filterMap (fun e => tierName e.1 e.2.1 e.2.2) := by
  rw [namedOf, List.map_filterMap]
  congr 1
  funext e
  cases tierName e.1 e.2.1 e.2.2 <;> rfl

theorem tierName_inj_aux (e e' : Nat × String × List Paper)
    (hsid : e.2.1 ≠ e'.2.1) (hnum : e.1 = e'.1 → e.2.1 = e'.2.1) :
    ∀ nm, tierName e.1 e.2.1 e.2.2 = some nm →
      tierName e'.1 e'.2.1 e'.2.2 ≠ some nm := by
  intro nm h1 h2
  unfold tierName at h1 h2
  cases ha : alookup SESSION_NAMES e.2.1 with
  | some v1 =>
      rw [ha] at h1
      injection h1 with h1
      subst h1
      cases hb : alookup SESSION_NAMES e'.2.1 with
      | some v2 =>
          rw [hb] at h2
          injection h2 with h2
          subst h2
          exact hsid (mem_of_snd_nodup SESSION_NAMES table_values_nodup _ _ _
            (alookup_mem _ _ _ ha) (alookup_mem _ _ _ hb))
      | none =>
          rw [hb] at h2
          by_cases hl : 3 ≤ e'.2.2.length
          · rw [if_pos hl] at h2
            injection h2 with h2
            have hpre : hasSessionPrefix v1 = true := by
              rw [← h2]
              exact hasSessionPrefix_append _
            have hmem := alookup_mem _ _ _ ha
            have := List.all_eq_true.1 table_no_session_marker _ hmem
            simp only [Bool.not_eq_true'] at this
            rw [this] at hpre
            cases hpre
          · rw [if_neg hl] at h2
            cases h2
  | none =>
      rw [ha] at h1
      by_cases hl : 3 ≤ e.2.2.length
      · rw [if_pos hl] at h1
        injection h1 with h1
        cases hb : alookup SESSION_NAMES e'.2.1 with
        | some v2 =>
            rw [hb] at h2
            injection h2 with h2
            have hpre : hasSessionPrefix nm = true := by
              rw [← h1]
              exact hasSessionPrefix_append _
            have hmem := alookup_mem _ _ _ hb
            have := List.all_eq_true.1 table_no_session_marker _ hmem
            simp only [Bool.not_eq_true'] at this
            rw [h2] at this
            rw [this] at hpre
            cases hpre
        | none =>
            rw [hb] at h2
            by_cases hl' : 3 ≤ e'.2.2.length
            · rw [if_pos hl'] at h2
              injection h2 with h2
              rw [← h1] at h2
              exact hsid (hnum (sessionName_injective _ _ h2.symm))
            · rw [if_neg hl'] at h2
              cases h2
      · rw [if_neg hl] at h1
        cases h1

theorem namedOf_keys_nodup (sk : List (Nat × String × List Paper))
    (hs : (sk.map (fun e => e.2.1)).Nodup)
    (hinj : ∀ e ∈ sk, ∀ e' ∈ sk, e.1 = e'.1 → e.2.1 = e'.2.1) :
    ((namedOf sk).map Prod.fst).Nodup := by
  rw [namedOf_keys]
  apply nodup_filterMap_pairwise
  have hp : sk.Pairwise (fun a b => a.2.1 ≠ b.2.1) := List.pairwise_map.1 hs
  refine List.Pairwise.imp_of_mem ?_ hp
  intro a b ha hb hne
  exact tierName_inj_aux a b hne (fun h => hinj a ha b hb h)

theorem other_not_mem_namedOf (sk : List (Nat × String × List Paper)) :
    ("Other Papers") ∉ (namedOf sk).map Prod.fst := by
  rw [namedOf_keys]
  intro hmem
  rcases List.mem_filterMap.1 hmem with ⟨e, he, hf⟩
  unfold tierName at hf
  cases ha : alookup SESSION_NAMES e.2.1 with
  | some v =>
      rw [ha] at hf
      injection hf with hf
      have hmem2 := alookup_mem _ _ _ ha
      have := List.all_eq_true.1 table_no_other _ hmem2
      rw [hf] at this
      simp at this
  | none =>
      rw [ha] at hf
      by_cases hl : 3 ≤ e.2.2.length
      · rw [if_pos hl] at hf
        injection hf with hf
        have hpre : hasSessionPrefix ("Other Papers") = true := by
          rw [← hf]
          exact hasSessionPrefix_append _
        rw [other_no_session_marker] at hpre
        cases hpre
      · rw [if_neg hl] at hf
        cases hf

theorem group_eq_some (papers : List Paper) (k : List (Nat × String × List Paper))
    (hk : keyed? (buildGroups papers) = some k) :
    group_papers_by_session papers
      = some (if ((sortByKey k).foldl tierStep ([], [])).2 = []
              then ((sortByKey k).foldl tierStep ([], [])).1
              else dictInsert ((sortByKey k).foldl tierStep ([], [])).1
                     ("Other Papers") ((sortByKey k).foldl tierStep ([], [])).2) := by
  unfold group_papers_by_session
  rw [hk]

theorem group_closed_form (papers : List Paper)
    (hwf : ∀ p ∈ papers, isSessId p.session_id = true)
    (hinj : ∀ p ∈ papers, ∀ q ∈ papers,
      sessNum? p.session_id = sessNum? q.session_id → p.session_id = q.session_id) :
    ∃ k, keyed? (buildGroups papers) = some k ∧
      group_papers_by_session papers
        = some (namedOf (sortByKey k) ++ otherOf (sortByKey k)) ∧
      ((namedOf (sortByKey k) ++ otherOf (sortByKey k)).map Prod.fst).Nodup ∧
      ("Other Papers") ∉ (namedOf (sortByKey k)).map Prod.fst ∧
      List.Perm ((sortByKey k).map (fun e => (e.2.1, e.2.2))) (buildGroups papers) ∧
      (∀ e ∈ sortByKey k, sessNum? e.2.1 = some e.1) ∧
      (sortByKey k).Pairwise (fun a b => a.1 ≤ b.1) := by
  obtain ⟨hnodupKeys, hbuckets⟩ := buildGroups_inv papers
  have hsome : (keyed? (buildGroups papers)).isSome := by
    apply keyed?_isSome
    intro sb hsb
    obtain ⟨hne, hmem⟩ := hbuckets sb hsb
    obtain ⟨q, hq⟩ := List.exists_mem_of_ne_nil _ hne
    obtain ⟨hqs, hqp⟩ := hmem q hq
    rw [← hqs, sessNum?_of_isSessId _ (hwf q hqp)]
    rfl
  obtain ⟨k, hk⟩ := Option.isSome_iff_exists.1 hsome
  obtain ⟨hkmap, hkkeys⟩ := keyed?_spec _ k hk
  have hperm0 := sortByKey_perm k
  have hperm : List.Perm ((sortByKey k).map (fun e => (e.2.1, e.2.2)))
      (buildGroups papers) := by
    rw [← hkmap]
    exact hperm0.map _
  have hkeys' : ∀ e ∈ sortByKey k, sessNum? e.2.1 = some e.1 := fun e he =>
    hkkeys e (hperm0.mem_iff.1 he)
  have hsidnodup : ((sortByKey k).map (fun e => e.2.1)).Nodup := by
    have h1 : (sortByKey k).map (fun e => e.2.1)
        = ((sortByKey k).map (fun e => (e.2.1, e.2.2))).map Prod.fst := by
      rw [List.map_map]
      rfl
    rw [h1]
    exact ((hperm.map Prod.fst).nodup_iff).2 hnodupKeys
  have hmemBG : ∀ e ∈ sortByKey k, (e.2.1, e.2.2) ∈ buildGroups papers := by
    intro e he
    exact hperm.subset (List.mem_map_of_mem _ he)
  have hinjsk : ∀ e ∈ sortByKey k, ∀ e' ∈ sortByKey k, e.1 = e'.1 → e.2.1 = e'.2.1 := by
    intro e he e' he' heq
    obtain ⟨hne, hmem⟩ := hbuckets _ (hmemBG e he)
    obtain ⟨q, hq⟩ := List.exists_mem_of_ne_nil _ hne
    obtain ⟨hqs, hqp⟩ := hmem q hq
    obtain ⟨hne', hmem'⟩ := hbuckets _ (hmemBG e' he')
    obtain ⟨q', hq'⟩ := List.exists_mem_of_ne_nil _ hne'
    obtain ⟨hqs', hqp'⟩ := hmem' q' hq'
    have h1 : sessNum? q.session_id = sessNum? q'.session_id := by
      rw [hqs, hqs', hkeys' e he, hkeys' e' he', heq]
    have h2 := hinj q hqp q' hqp' h1
    rw [← hqs, ← hqs']
    exact h2
  have hnamesnodup := namedOf_keys_nodup _ hsidnodup hinjsk
  have hother := other_not_mem_namedOf (sortByKey k)
  have hfullnodup :
      ((namedOf (sortByKey k) ++ otherOf (sortByKey k)).map Prod.fst).Nodup := by
    rw [List.map_append]
    unfold otherOf
    by_cases hm : miscOf (sortByKey k) = []
    · simp [hm, hnamesnodup]
    · rw [if_neg hm]
      simp [List.nodup_append, hnamesnodup, hother]
  have hgroup : group_papers_by_session papers
      = some (namedOf (sortByKey k) ++ otherOf (sortByKey k)) := by
    rw [group_eq_some papers k hk]
    rw [foldl_tierStep_eq]
    rw [foldl_dictInsert_append _ [] hnamesnodup (by simp)]
    simp only [List.nil_append]
    unfold otherOf
    by_cases hm : miscOf (sortByKey k) = []
    · simp [hm]
    · rw [if_neg hm, if_neg hm]
      rw [dictInsert_eq_append _ _ _ hother]
  exact ⟨k, hk, hgroup, hfullnodup, hother, hperm, hkeys', sortByKey_pairwise k⟩

/-- C2: Three-tier session naming.  For papers whose session ids have the
extractor's `sess<digits>` shape and whose numeric suffixes identify the id
uniquely, the grouped output names a bucket by the static table entry when
its session id is in the table, by the synthesized `Session {n}` name when
it is unmapped and holds at least three papers, and otherwise sends its
papers to the catch-all `Other Papers` bucket, which is present exactly when
some unmapped bucket of fewer than three papers exists. -/
theorem group_three_tier_naming (papers : List Paper)
    (hwf : ∀ p ∈ papers, isSessId p.session_id = true)
    (hinj : ∀ p ∈ papers, ∀ q ∈ papers,
      sessNum? p.session_id = sessNum? q.session_id → p.session_id = q.session_id) :
    ∃ res, group_papers_by_session papers = some res ∧
      (∀ sid bucket nm, (sid, bucket) ∈ buildGroups papers →
        alookup SESSION_NAMES sid = some nm → alookup res nm = some bucket) ∧
      (∀ sid bucket n, (sid, bucket) ∈ buildGroups papers →
        alookup SESSION_NAMES sid = none → 3 ≤ bucket.length →
        sessNum? sid = some n →
        alookup res ("Session " ++ toString n) = some bucket) ∧
      (∀ sid bucket, (sid, bucket) ∈ buildGroups papers →
        alookup SESSION_NAMES sid = none → bucket.length < 3 →
        ∀ p ∈ bucket, ∃ mp, alookup res ("Other Papers") = some mp ∧ p ∈ mp) ∧
      ((∃ mp, alookup res ("Other Papers") = some mp) ↔
        ∃ sid bucket, (sid, bucket) ∈ buildGroups papers ∧
          alookup SESSION_NAMES sid = none ∧ bucket.length < 3) := by
  obtain ⟨k, hk, hgroup, hfullnodup, hother, hperm, hkeys, hsorted⟩ :=
    group_closed_form papers hwf hinj
  have hbuckets := (buildGroups_inv papers).2
  have hfromBG : ∀ sid bucket, (sid, bucket) ∈ buildGroups papers →
      ∃ e ∈ sortByKey k, e.2.1 = sid ∧ e.2.2 = bucket := by
    intro sid bucket hmem
    have h1 := hperm.symm.subset hmem
    rcases List.mem_map.1 h1 with ⟨e, he, heq⟩
    exact ⟨e, he, congrArg Prod.fst heq, congrArg Prod.snd heq⟩
  refine ⟨_, hgroup, ?_, ?_, ?_, ?_⟩
  · intro sid bucket nm hmem htab
    obtain ⟨e, he, hes, heb⟩ := hfromBG sid bucket hmem
    have htier : tierName e.1 e.2.1 e.2.2 = some nm := by
      unfold tierName
      rw [hes, htab]
    have hnmem : (nm, bucket) ∈ namedOf (sortByKey k) :=
      List.mem_filterMap.2 ⟨e, he, by rw [htier, heb]; rfl⟩
    exact alookup_eq_of_mem_of_nodup _ _ _
      (List.mem_append_left _ hnmem) hfullnodup
  · intro sid bucket n hmem htab hlen hsn
    obtain ⟨e, he, hes, heb⟩ := hfromBG sid bucket hmem
    have hen : e.1 = n := by
      have h1 := hkeys e he
      rw [hes, hsn] at h1
      injection h1 with h1
      exact h1.symm
    have htier : tierName e.1 e.2.1 e.2.2 = some ("Session " ++ toString n) := by
      unfold tierName
      rw [hes, htab, heb, if_pos hlen, hen]
    have hnmem : ("Session " ++ toString n, bucket) ∈ namedOf (sortByKey k) :=
      List.mem_filterMap.2 ⟨e, he, by rw [htier, heb]; rfl⟩
    exact alookup_eq_of_mem_of_nodup _ _ _
      (List.mem_append_left _ hnmem) hfullnodup
  · intro sid bucket hmem htab hlen p hp
    obtain ⟨e, he, hes, heb⟩ := hfromBG sid bucket hmem
    have htier : tierName e.1 e.2.1 e.2.2 = none := by
      unfold tierName
      rw [hes, htab, heb, if_neg (by omega)]
    have hpm : p ∈ miscOf (sortByKey k) := by
      unfold miscOf
      refine List.mem_flatten.2 ⟨e.2.2, ?_, by rw [heb]; exact hp⟩
      exact List.mem_map_of_mem _ (List.mem_filter.2 ⟨he, by rw [htier]; rfl⟩)
    have hmnil : miscOf (sortByKey k) ≠ [] := List.ne_nil_of_mem hpm
    refine ⟨miscOf (sortByKey k), ?_, hpm⟩
    rw [alookup_append_right _ _ _ hother]
    unfold otherOf
    rw [if_neg hmnil]
    simp [alookup]
  · constructor
    · rintro ⟨mp, hmp⟩
      by_cases hm : miscOf (sortByKey k) = []
      · rw [alookup_append_right _ _ _ hother] at hmp
        unfold otherOf at hmp
        rw [if_pos hm] at hmp
        cases hmp
      · have hfilter : (sortByKey k).filter
            (fun e => (tierName e.1 e.2.1 e.2.2).isNone) ≠ [] := by
          intro hnil
          apply hm
          unfold miscOf
          rw [hnil]
          rfl
        obtain ⟨e, he⟩ := List.exists_mem_of_ne_nil _ hfilter
        obtain ⟨he1, he2⟩ := List.mem_filter.1 he
        have htier : tierName e.1 e.2.1 e.2.2 = none := by
          cases ht : tierName e.1 e.2.1 e.2.2 with
          | none => rfl
          | some v => rw [ht] at he2; cases he2
        have htab : alookup SESSION_NAMES e.2.1 = none := by
          unfold tierName at htier
          cases ht : alookup SESSION_NAMES e.2.1 with
          | none => rfl
          | some v => rw [ht] at htier; cases htier
        have hlen : e.2.2.length < 3 := by
          unfold tierName at htier
          rw [htab] at htier
          by_cases hl : 3 ≤ e.2.2.length
          · rw [if_pos hl] at htier; cases htier
          · omega
        exact ⟨e.2.1, e.2.2, hperm.subset (List.mem_map_of_mem _ he1), htab, hlen⟩
    · rintro ⟨sid, bucket, hmem, htab, hlen⟩
      obtain ⟨e, he, hes, heb⟩ := hfromBG sid bucket hmem
      obtain ⟨hne, _⟩ := hbuckets _ hmem
      obtain ⟨p, hp⟩ := List.exists_mem_of_ne_nil _ hne
      have htier : tierName e.1 e.2.1 e.2.2 = none := by
        unfold tierName
        rw [hes, htab, heb, if_neg (by omega)]
      have hpm : p ∈ miscOf (sortByKey k) := by
        unfold miscOf
        refine List.mem_flatten.2 ⟨e.2.2, ?_, by rw [heb]; exact hp⟩
        exact List.mem_map_of_mem _ (List.mem_filter.2 ⟨he, by rw [htier]; rfl⟩)
      have hmnil : miscOf (sortByKey k) ≠ [] := List.ne_nil_of_mem hpm
      refine ⟨miscOf (sortByKey k), ?_⟩
      rw [alookup_append_right _ _ _ hother]
      unfold otherOf
      rw [if_neg hmnil]
      simp [alookup]

/-- Concrete papers hitting all three naming tiers, used to instantiate the
three-tier theorem. -/
def c2Papers : List Paper :=
  [⟨"1", "sess104", "a", [], none⟩,
   ⟨"2", "sess300", "b", [], none⟩,
   ⟨"3", "sess300", "c", [], none⟩,
   ⟨"4", "sess300", "d", [], none⟩,
   ⟨"5", "sess301", "e", [], none⟩]

theorem group_three_tier_naming_witness :
    ∃ res, group_papers_by_session c2Papers = some res ∧
      (∀ sid bucket nm, (sid, bucket) ∈ buildGroups c2Papers →
        alookup SESSION_NAMES sid = some nm → alookup res nm = some bucket) ∧
      (∀ sid bucket n, (sid, bucket) ∈ buildGroups c2Papers →
        alookup SESSION_NAMES sid = none → 3 ≤ bucket.length →
        sessNum? sid = some n →
        alookup res ("Session " ++ toString n) = some bucket) ∧
      (∀ sid bucket, (sid, bucket) ∈ buildGroups c2Papers →
        alookup SESSION_NAMES sid = none → bucket.length < 3 →
        ∀ p ∈ bucket, ∃ mp, alookup res ("Other Papers") = some mp ∧ p ∈ mp) ∧
      ((∃ mp, alookup res ("Other Papers") = some mp) ↔
        ∃ sid bucket, (sid, bucket) ∈ buildGroups c2Papers ∧
          alookup SESSION_NAMES sid = none ∧ bucket.length < 3) :=
  group_three_tier_naming c2Papers (by decide) (by decide)

/-- C3: Session ordering.  Under the same well-formedness hypotheses, the
grouped output is exactly the named buckets generated, in order, from the
key-sorted grouping (whose numeric keys are ascending and are the numeric
suffixes of the source session ids), followed by the catch-all bucket when
it is non-empty. -/
theorem group_session_ordering (papers : List Paper)
    (hwf : ∀ p ∈ papers, isSessId p.session_id = true)
    (hinj : ∀ p ∈ papers, ∀ q ∈ papers,
      sessNum? p.session_id = sessNum? q.session_id → p.session_id = q.session_id) :
    ∃ k, keyed? (buildGroups papers) = some k ∧
      group_papers_by_session papers
        = some (namedOf (sortByKey k) ++ otherOf (sortByKey k)) ∧
      (sortByKey k).Pairwise (fun a b => a.1 ≤ b.1) ∧
      (∀ e ∈ sortByKey k, sessNum? e.2.1 = some e.1) ∧
      List.Perm ((sortByKey k).map (fun e => (e.2.1, e.2.2))) (buildGroups papers) := by
  obtain ⟨k, hk, hgroup, _, _, hperm, hkeys, hsorted⟩ :=
    group_closed_form papers hwf hinj
  exact ⟨k, hk, hgroup, hsorted, hkeys, hperm⟩

/-- Concrete papers with out-of-order session ids, used to instantiate the
ordering theorem. -/
def c3Papers : List Paper :=
  [⟨"1", "sess159", "a", [], none⟩,
   ⟨"2", "sess104", "b", [], none⟩,
   ⟨"3", "sess302", "c", [], none⟩]

theorem group_session_ordering_witness :
    ∃ k, keyed? (buildGroups c3Papers) = some k ∧
      group_papers_by_session c3Papers
        = some (namedOf (sortByKey k) ++ otherOf (sortByKey k)) ∧
      (sortByKey k).Pairwise (fun a b => a.1 ≤ b.1) ∧
      (∀ e ∈ sortByKey k, sessNum? e.2.1 = some e.1) ∧
      List.Perm ((sortByKey k).map (fun e => (e.2.1, e.2.2))) (buildGroups c3Papers) :=
  group_session_ordering c3Papers (by decide) (by decide)

theorem tryIdAt_digits (cs : List Char) (r : List Char × List Char × List Char)
    (h : tryIdAt cs = some r) : r.2.1 ≠ [] ∧ r.2.1.all Char.isDigit := by
  unfold tryIdAt at h
  by_cases h1 : litIdPapers.isPrefixOf cs
  · rw [if_pos h1] at h
    simp only [] at h
    by_cases h2 : (cs.drop litIdPapers.length).takeWhile Char.isDigit ≠ [] ∧
        litSess.isPrefixOf ((cs.drop litIdPapers.length).dropWhile Char.isDigit)
    · rw [if_pos h2] at h
      split at h
      · rename_i s5 heq
        by_cases h3 :
            (((cs.drop litIdPapers.length).dropWhile Char.isDigit).drop
                litSess.length).takeWhile Char.isDigit ≠ []
        · rw [if_pos h3] at h
          split at h
          · rename_i s7 heq2
            by_cases h4 : s7.takeWhile (fun ch => ch ≠ '<') ≠ [] ∧
                litAClose.isPrefixOf (s7.dropWhile (fun ch => ch ≠ '<'))
            · rw [if_pos h4] at h
              injection h with h
              subst h
              refine ⟨h3, ?_⟩
              exact List.all_eq_true.2 (fun c hc => List.mem_takeWhile_imp hc)
            · rw [if_neg h4] at h
              cases h
          · cases h
        · rw [if_neg h3] at h
          cases h
      · cases h
    · rw [if_neg h2] at h
      cases h
  · rw [if_neg h1] at h
    cases h

theorem scanQuote_digits (cs : List Char) :
    ∀ r, scanQuote cs = some r → r.2.1 ≠ [] ∧ r.2.1.all Char.isDigit := by
  induction cs with
  | nil =>
      intro r h
      exact tryIdAt_digits [] r h
  | cons c rest ih =>
      intro r h
      simp only [scanQuote] at h
      split at h
      · exact tryIdAt_digits _ r h
      · split at h
        · rename_i r' heq
          injection h with h
          subst h
          exact ih r' heq
        · exact tryIdAt_digits _ r h

theorem linkSearch_digits (cs : List Char) :
    ∀ r, linkSearch cs = some r → r.2.1 ≠ [] ∧ r.2.1.all Char.isDigit := by
  induction cs with
  | nil => intro r h; cases h
  | cons c rest ih =>
      intro r h
      simp only [linkSearch] at h
      split at h
      · split at h
        · rename_i r' heq
          injection h with h
          subst h
          exact scanQuote_digits _ r' heq
        · exact ih r h
      · exact ih r h

/-- C9: The grouping's numeric conversion is total on extractor output.
Every paper produced by `extract_technical_papers` has a session id of the
form `sess<digits>`, so the `int(session_id.replace('sess', ''))` conversion
used by `group_papers_by_session` never fails and the grouping always
returns a result. -/
theorem grouping_total_on_extractor_output (html_content : String) :
    (group_papers_by_session (extract_technical_papers html_content)).isSome := by
  have hwf : ∀ p ∈ extract_technical_papers html_content,
      isSessId p.session_id = true := by
    intro p hp
    obtain ⟨ic, tc, r, hb, hls, rfl⟩ := mem_runBlocks _ _ p hp
    have hd := linkSearch_digits tc r hls
    exact isSessId_sess_append r.2.1 hd.1 hd.2
  obtain ⟨hnodup, hbuckets⟩ := buildGroups_inv (extract_technical_papers html_content)
  have hsome :
      (keyed? (buildGroups (extract_technical_papers html_content))).isSome := by
    apply keyed?_isSome
    intro sb hsb
    obtain ⟨hne, hmem⟩ := hbuckets sb hsb
    obtain ⟨q, hq⟩ := List.exists_mem_of_ne_nil _ hne
    obtain ⟨hqs, hqp⟩ := hmem q hq
    rw [← hqs, sessNum?_of_isSessId _ (hwf q hqp)]
    rfl
  obtain ⟨k, hk⟩ := Option.isSome_iff_exists.1 hsome
  unfold group_papers_by_session
  rw [hk]
  rfl

/-- Python `str.strip()` on a `String`. -/
def stripS (s : String) : String := String.mk (pyStrip s.data)

/-- `load_urls_for_html`: the identifier → url lookup derived from the
sidecar, keeping only urls that are non-blank after stripping. -/
def load_urls_for_html (file : Option J) : List (String × String) :=
  (_load_existing_meta file).foldl
    (fun out pm =>
      if stripS pm.2.1 ≠ "" then dictInsert out pm.1 (stripS pm.2.1) else out) []

/-- `load_abstracts_for_html`: the identifier → abstract lookup derived from
the sidecar, keeping only abstracts that are non-blank after stripping. -/
def load_abstracts_for_html (file : Option J) : List (String × String) :=
  (_load_existing_meta file).foldl
    (fun out pm =>
      if stripS pm.2.2 ≠ "" then dictInsert out pm.1 (stripS pm.2.2) else out) []

/-- One character of Python `html.escape(s, quote=True)`. -/
def escChar (c : Char) : List Char :=
  if c = '&' then ("&amp;").data
  else if c = '<' then ("&lt;").data
  else if c = '>' then ("&gt;").data
  else if c = '"' then ("&quot;").data
  else if c = Char.ofNat 39 then ("&#x27;").data
  else [c]

/-- Python `html.escape` with `quote=True`. -/
def html_escape (s : String) : String := String.mk ((s.data.map escChar).flatten)

/-- One character of the JavaScript-escaping replace chain of
`generate_html` (backslash, quote, newline, carriage return). -/
def jsEscChar (c : Char) : List Char :=
  if c = '\\' then [('\\' : Char), ('\\' : Char)]
  else if c = Char.ofNat 39 then [('\\' : Char), Char.ofNat 39]
  else if c = '\n' then [('\\' : Char), ('n' : Char)]
  else if c = '\r' then [('\\' : Char), ('r' : Char)]
  else [c]

/-- The replace chain escaping url/abstract text for inline JavaScript. -/
def jsEscape (s : String) : String := String.mk ((s.data.map jsEscChar).flatten)

/-- One character of `paper_url.replace('"', "%22")`. -/
def quoteToPct (c : Char) : List Char := if c = '"' then ("%22").data else [c]

/-- The `safe_url` percent-escaping of `generate_html`. -/
def safeUrlOf (s : String) : String := String.mk ((s.data.map quoteToPct).flatten)
/-- The CSS stylesheet of `generate_html`, verbatim. -/

def cssText : String :=

  "\n:root \x7b\n    --bg-primary: #fef9f3;\n    --bg-secondary: #fff5eb;\n    --bg-card: #ffffff;\n    --bg-card-hover: #fff8f0;\n    --text-primary: #2d2a3e;\n    --text-secondary: #6b6880;\n    --accent: #ff6b6b;\n    --accent-secondary: #4ecdc4;\n    --accent-tertiary: #ffe66d;\n    --accent-gradient: linear-gradient(135deg, #ff6b6b 0%, #feca57 50%, #4ecdc4 100%);\n    --border: #f0e6dc;\n    --shadow: rgba(255, 107, 107, 0.15);\n\x7d\n\n@import url(\x27https://fonts.googleapis.com/css2?family=Fredoka:wght@400;500;600;700&family=Nunito:wght@400;500;600;700&display=swap\x27);\n\n* \x7b\n    margin: 0;\n    padding: 0;\n    box-sizing: border-box;\n\x7d\n\nhtml \x7b\n    scroll-behavior: smooth;\n\x7d\n\nbody \x7b\n    font-family: \x27Nunito\x27, -apple-system, BlinkMacSystemFont, sans-serif;\n    background: var(--bg-primary);\n    color: var(--text-primary);\n    line-height: 1.7;\n    min-height: 100vh;\n    font-size: 17px;\n\x7d\n\n.bg-pattern \x7b\n    position: fixed;\n    top: 0;\n    left: 0;\n    right: 0;\n    bottom: 0;\n    background-image: \n        radial-gradient(circle at 10% 20%, rgba(255, 107, 107, 0.12) 0%, transparent 50%),\n        radial-gradient(circle at 90% 80%, rgba(78, 205, 196, 0.1) 0%, transparent 50%),\n        radial-gradient(circle at 50% 50%, rgba(255, 230, 109, 0.08) 0%, transparent 60%);\n    pointer-events: none;\n    z-index: 0;\n\x7d\n\n.container \x7b\n    max-width: 1500px;\n    margin: 0 auto;\n    padding: 2rem;\n    position: relative;\n    z-index: 1;\n\x7d\n\nheader \x7b\n    text-align: center;\n    padding: 5rem 2rem 4rem;\n    position: relative;\n\x7d\n\nheader::before \x7b\n    content: \x27\x27;\n    position: absolute;\n    top: -50px;\n    left: 50%;\n    transform: translateX(-50%);\n    width: 500px;\n    height: 500px;\n    background: radial-gradient(ellipse at center, rgba(255, 230, 109, 0.25) 0%, transparent 70%);\n    pointer-events: none;\n    border-radius: 50%;\n\x7d\n\n.logo \x7b\n    font-family: \x27Fredoka\x27, sans-serif;\n    font-size: 1rem;\n    letter-spacing: 0.2em;\n    text-transform: uppercase;\n    color: var(--accent);\n    margin-bottom: 1.5rem;\n    font-weight: 600;\n\x7d\n\nheader h1 \x7b\n    font-family: \x27Fredoka\x27, sans-serif;\n    font-size: 4.5rem;\n    font-weight: 700;\n    letter-spacing: -0.02em;\n    background: var(--accent-gradient);\n    -webkit-background-clip: text;\n    -webkit-text-fill-color: transparent;\n    background-clip: text;\n    margin-bottom: 0.75rem;\n    line-height: 1.1;\n\x7d\n\nheader .subtitle \x7b\n    font-family: \x27Fredoka\x27, sans-serif;\n    font-size: 1.6rem;\n    font-weight: 500;\n    color: var(--text-secondary);\n    margin-bottom: 2rem;\n\x7d\n\n.meta-info \x7b\n    display: inline-flex;\n    align-items: center;\n    gap: 2rem;\n    padding: 1rem 2rem;\n    background: var(--bg-card);\n    border: 2px solid var(--border);\n    border-radius: 100px;\n    font-size: 1rem;\n    box-shadow: 0 4px 20px var(--shadow);\n\x7d\n\n.meta-info span \x7b\n    display: flex;\n    align-items: center;\n    gap: 0.5rem;\n    color: var(--text-secondary);\n    font-weight: 600;\n\x7d\n\n.meta-info .icon \x7b\n    font-size: 1.2rem;\n\x7d\n\n.stats-bar \x7b\n    display: flex;\n    justify-content: center;\n    gap: 4rem;\n    margin-top: 3rem;\n    padding-top: 2rem;\n    border-top: 2px dashed var(--border);\n\x7d\n\n.stat-item \x7b\n    text-align: center;\n\x7d\n\n.stat-value \x7b\n    font-family: \x27Fredoka\x27, sans-serif;\n    font-size: 3.5rem;\n    font-weight: 700;\n    background: var(--accent-gradient);\n    -webkit-background-clip: text;\n    -webkit-text-fill-color: transparent;\n    background-clip: text;\n    line-height: 1;\n\x7d\n\n.stat-label \x7b\n    font-size: 0.9rem;\n    text-transform: uppercase;\n    letter-spacing: 0.1em;\n    color: var(--text-secondary);\n    margin-top: 0.5rem;\n    font-weight: 600;\n\x7d\n\n.session \x7b\n    margin-bottom: 4rem;\n\x7d\n\n.session-header \x7b\n    display: flex;\n    align-items: center;\n    gap: 1rem;\n    margin-bottom: 2rem;\n    padding-bottom: 1rem;\n    border-bottom: 3px dashed var(--border);\n\x7d\n\n.session-header::before \x7b\n    content: \x27‚ú¶\x27;\n    font-size: 1.5rem;\n    color: var(--accent);\n\x7d\n\n.session h2 \x7b\n    font-family: \x27Fredoka\x27, sans-serif;\n    font-size: 1.7rem;\n    font-weight: 600;\n    flex: 1;\n    color: var(--text-primary);\n\x7d\n\n.session-count \x7b\n    font-size: 0.9rem;\n    font-weight: 700;\n    color: var(--accent);\n    background: rgba(255, 107, 107, 0.1);\n    padding: 0.5rem 1.2rem;\n    border-radius: 100px;\n    border: 2px solid rgba(255, 107, 107, 0.2);\n\x7d\n\n.papers-grid \x7b\n    display: grid;\n    grid-template-columns: repeat(auto-fill, minmax(340px, 1fr));\n    gap: 1.75rem;\n\x7d\n\n.paper-card \x7b\n    background: var(--bg-card);\n    border-radius: 20px;\n    overflow: hidden;\n    border: 2px solid var(--border);\n    transition: all 0.3s cubic-bezier(0.4, 0, 0.2, 1);\n    display: flex;\n    flex-direction: column;\n    box-shadow: 0 4px 15px rgba(0, 0, 0, 0.05);\n\x7d\n\n.paper-card:hover \x7b\n    transform: translateY(-8px) rotate(-0.5deg);\n    box-shadow: \n        0 20px 40px rgba(255, 107, 107, 0.15),\n        0 0 0 3px rgba(255, 107, 107, 0.1);\n    border-color: var(--accent);\n\x7d\n\n.thumbnail-wrapper \x7b\n    position: relative;\n    width: 100%;\n    padding-top: 56.25%;\n    overflow: hidden;\n    background: var(--bg-secondary);\n\x7d\n\n.thumbnail \x7b\n    position: absolute;\n    top: 0;\n    left: 0;\n    width: 100%;\n    height: 100%;\n    object-fit: cover;\n    transition: transform 0.5s cubic-bezier(0.4, 0, 0.2, 1);\n\x7d\n\n.paper-card:hover .thumbnail \x7b\n    transform: scale(1.1);\n\x7d\n\n.thumbnail.placeholder \x7b\n    display: flex;\n    align-items: center;\n    justify-content: center;\n    font-size: 3.5rem;\n    color: var(--border);\n    background: linear-gradient(135deg, var(--bg-secondary) 0%, var(--bg-card) 100%);\n\x7d\n\n.card-content \x7b\n    padding: 1.5rem;\n    flex: 1;\n    display: flex;\n    flex-direction: column;\n\x7d\n\n.paper-card h3 \x7b\n    font-family: \x27Fredoka\x27, sans-serif;\n    font-size: 1.1rem;\n    font-weight: 600;\n    line-height: 1.4;\n    margin-bottom: 0.85rem;\n    display: -webkit-box;\n    -webkit-line-clamp: 3;\n    -webkit-box-orient: vertical;\n    overflow: hidden;\n    color: var(--text-primary);\n\x7d\n\n.authors \x7b\n    font-size: 0.95rem;\n    color: var(--text-secondary);\n    line-height: 1.6;\n    margin-top: auto;\n    display: -webkit-box;\n    -webkit-line-clamp: 2;\n    -webkit-box-orient: vertical;\n    overflow: hidden;\n    font-weight: 500;\n\x7d\n\n.paper-title-link \x7b\n    color: inherit;\n    text-decoration: none;\n\x7d\n\n.paper-title-link:hover \x7b\n    text-decoration: underline;\n    text-decoration-thickness: 3px;\n    text-underline-offset: 3px;\n    text-decoration-color: rgba(255, 107, 107, 0.7);\n\x7d\n\n.paper-actions \x7b\n    display: flex;\n    gap: 0.5rem;\n    margin-top: 1rem;\n    padding-top: 1rem;\n    border-top: 2px dashed var(--border);\n    align-items: center;\n    flex-wrap: wrap;\n\x7d\n\n.paper-links \x7b\n    display: flex;\n    gap: 0.5rem;\n\x7d\n\n.abstract-toggle \x7b\n    margin-top: 0;\n    padding-top: 0;\n    border-top: none;\n\x7d\n\n.abstract-toggle summary \x7b\n    list-style: none;\n    cursor: pointer;\n    display: inline-flex;\n    align-items: center;\n    gap: 0.5rem;\n    padding: 0.45rem 0.9rem;\n    border-radius: 100px;\n    background: rgba(255, 230, 109, 0.25);\n    border: 2px solid rgba(255, 230, 109, 0.45);\n    font-weight: 800;\n    font-size: 0.9rem;\n    color: var(--text-primary);\n    user-select: none;\n\x7d\n\n.abstract-toggle summary::-webkit-details-marker \x7b\n    display: none;\n\x7d\n\n.abstract-toggle summary:hover \x7b\n    transform: scale(1.03);\n\x7d\n\n.abstract-toggle .abstract-body \x7b\n    margin-top: 0.75rem;\n    padding: 0.9rem 1rem;\n    background: rgba(78, 205, 196, 0.08);\n    border: 2px solid rgba(78, 205, 196, 0.18);\n    border-radius: 14px;\n    color: var(--text-primary);\n    font-size: 0.98rem;\n    line-height: 1.7;\n    white-space: pre-wrap;\n\x7d\n\n.abstract-toggle .abstract-missing \x7b\n    opacity: 0.75;\n    font-style: italic;\n\x7d\n\n.paper-link \x7b\n    display: inline-flex;\n    align-items: center;\n    gap: 0.4rem;\n    padding: 0.5rem 1rem;\n    border-radius: 100px;\n    font-size: 0.85rem;\n    font-weight: 800;\n    text-decoration: none;\n    transition: all 0.2s ease;\n    background: rgba(78, 205, 196, 0.12);\n    color: #0f766e;\n    border: 2px solid rgba(78, 205, 196, 0.35);\n    position: relative;\n\x7d\n\n.paper-link:hover \x7b\n    transform: scale(1.04);\n    background: rgba(78, 205, 196, 0.18);\n\x7d\n\n.paper-link .edit-icon-inline \x7b\n    margin-left: 0.3rem;\n    padding: 0.2rem 0.4rem;\n    background: rgba(255, 107, 107, 0.2);\n    border-radius: 50%;\n    font-size: 0.7rem;\n    cursor: pointer;\n    transition: all 0.2s ease;\n    display: inline-flex;\n    align-items: center;\n    justify-content: center;\n\x7d\n\n.paper-link .edit-icon-inline:hover \x7b\n    background: rgba(255, 107, 107, 0.35);\n    transform: scale(1.15);\n\x7d\n\n.edit-btn, .edit-btn-inline \x7b\n    background: rgba(255, 107, 107, 0.15);\n    border: 2px solid rgba(255, 107, 107, 0.35);\n    border-radius: 100px;\n    padding: 0.4rem 0.7rem;\n    font-size: 0.75rem;\n    font-weight: 700;\n    color: #c62828;\n    cursor: pointer;\n    transition: all 0.2s ease;\n    display: inline-flex;\n    align-items: center;\n    gap: 0.3rem;\n    margin-left: 0.3rem;\n\x7d\n\n.edit-btn:hover, .edit-btn-inline:hover \x7b\n    background: rgba(255, 107, 107, 0.25);\n    transform: scale(1.05);\n\x7d\n\n.edit-btn-inline \x7b\n    margin-left: 0.5rem;\n    padding: 0.25rem 0.5rem;\n    font-size: 0.7rem;\n\x7d\n\n.abstract-toggle summary \x7b\n    display: flex;\n    align-items: center;\n    justify-content: space-between;\n\x7d\n\n/* Edit Modal */\n.edit-modal \x7b\n    display: none;\n    position: fixed;\n    top: 0;\n    left: 0;\n    right: 0;\n    bottom: 0;\n    background: rgba(0, 0, 0, 0.6);\n    z-index: 1000;\n    align-items: center;\n    justify-content: center;\n    padding: 2rem;\n\x7d\n\n.edit-modal.active \x7b\n    display: flex;\n\x7d\n\n.edit-modal-content \x7b\n    background: var(--bg-card);\n    border: 3px solid var(--accent);\n    border-radius: 20px;\n    padding: 2rem;\n    max-width: 600px;\n    width: 100%;\n    max-height: 80vh;\n    overflow-y: auto;\n    box-shadow: 0 20px 60px rgba(0, 0, 0, 0.3);\n\x7d\n\n.edit-modal-header \x7b\n    display: flex;\n    justify-content: space-between;\n    align-items: center;\n    margin-bottom: 1.5rem;\n    padding-bottom: 1rem;\n    border-bottom: 2px dashed var(--border);\n\x7d\n\n.edit-modal-header h3 \x7b\n    font-family: \x27Fredoka\x27, sans-serif;\n    font-size: 1.3rem;\n    color: var(--text-primary);\n    margin: 0;\n\x7d\n\n.edit-modal-close \x7b\n    background: rgba(255, 107, 107, 0.2);\n    border: 2px solid rgba(255, 107, 107, 0.4);\n    border-radius: 100px;\n    width: 2rem;\n    height: 2rem;\n    display: flex;\n    align-items: center;\n    justify-content: center;\n    cursor: pointer;\n    font-size: 1.2rem;\n    color: var(--accent);\n    transition: all 0.2s ease;\n\x7d\n\n.edit-modal-close:hover \x7b\n    background: rgba(255, 107, 107, 0.3);\n    transform: scale(1.1);\n\x7d\n\n.edit-modal-body \x7b\n    margin-bottom: 1.5rem;\n\x7d\n\n.edit-modal-body label \x7b\n    display: block;\n    font-weight: 700;\n    margin-bottom: 0.5rem;\n    color: var(--text-primary);\n    font-size: 0.9rem;\n\x7d\n\n.edit-modal-body input,\n.edit-modal-body textarea \x7b\n    width: 100%;\n    padding: 0.75rem;\n    border: 2px solid var(--border);\n    border-radius: 12px;\n    font-family: \x27Nunito\x27, sans-serif;\n    font-size: 0.95rem;\n    background: var(--bg-secondary);\n    color: var(--text-primary);\n    resize: vertical;\n\x7d\n\n.edit-modal-body textarea \x7b\n    min-height: 150px;\n    line-height: 1.6;\n\x7d\n\n.edit-modal-body input:focus,\n.edit-modal-body textarea:focus \x7b\n    outline: none;\n    border-color: var(--accent);\n    box-shadow: 0 0 0 3px rgba(255, 107, 107, 0.1);\n\x7d\n\n.edit-modal-footer \x7b\n    display: flex;\n    gap: 0.75rem;\n    justify-content: flex-end;\n\x7d\n\n.edit-modal-btn \x7b\n    padding: 0.6rem 1.5rem;\n    border-radius: 100px;\n    font-weight: 700;\n    font-size: 0.9rem;\n    cursor: pointer;\n    transition: all 0.2s ease;\n    border: 2px solid;\n\x7d\n\n.edit-modal-btn.save \x7b\n    background: rgba(78, 205, 196, 0.2);\n    border-color: rgba(78, 205, 196, 0.4);\n    color: #0f766e;\n\x7d\n\n.edit-modal-btn.save:hover \x7b\n    background: rgba(78, 205, 196, 0.3);\n    transform: scale(1.05);\n\x7d\n\n.edit-modal-btn.cancel \x7b\n    background: rgba(255, 107, 107, 0.1);\n    border-color: rgba(255, 107, 107, 0.3);\n    color: var(--text-secondary);\n\x7d\n\n.edit-modal-btn.cancel:hover \x7b\n    background: rgba(255, 107, 107, 0.2);\n\x7d\n\n.export-btn-container \x7b\n    position: fixed;\n    bottom: 2rem;\n    right: 2rem;\n    z-index: 100;\n\x7d\n\n.export-btn \x7b\n    background: var(--accent-gradient);\n    color: white;\n    border: none;\n    border-radius: 100px;\n    padding: 1rem 1.5rem;\n    font-family: \x27Fredoka\x27, sans-serif;\n    font-weight: 700;\n    font-size: 0.9rem;\n    cursor: pointer;\n    box-shadow: 0 4px 20px rgba(255, 107, 107, 0.3);\n    transition: all 0.2s ease;\n\x7d\n\n.export-btn:hover \x7b\n    transform: translateY(-2px);\n    box-shadow: 0 6px 25px rgba(255, 107, 107, 0.4);\n\x7d\n\nfooter \x7b\n    text-align: center;\n    padding: 3rem 2rem;\n    margin-top: 2rem;\n    border-top: 3px dashed var(--border);\n    color: var(--text-secondary);\n    font-size: 1rem;\n\x7d\n\nfooter a \x7b\n    color: var(--accent);\n    text-decoration: none;\n    font-weight: 600;\n\x7d\n\nfooter a:hover \x7b\n    text-decoration: underline;\n\x7d\n\n@media (max-width: 768px) \x7b\n    header h1 \x7b\n        font-size: 2.8rem;\n    \x7d\n    \n    .papers-grid \x7b\n        grid-template-columns: 1fr;\n    \x7d\n    \n    .stats-bar \x7b\n        gap: 2rem;\n    \x7d\n    \n    .meta-info \x7b\n        flex-direction: column;\n        gap: 0.75rem;\n    \x7d\n\x7d\n"

/-- Literal fragment 0 of the corresponding template of `generate_html`. -/

def fragLinkUrl0 : String :=

  "\n                    <div class=\"paper-links\">\n                        <a class=\"paper-link\" href=\""

/-- Literal fragment 1 of the corresponding template of `generate_html`. -/

def fragLinkUrl1 : String :=

  "\" target=\"_blank\" rel=\"noopener\">\n                            üîó Open link\n                            <span class=\"edit-icon-inline\" onclick=\"event.preventDefault(); event.stopPropagation(); openEditModal(\x27"

/-- Literal fragment 2 of the corresponding template of `generate_html`. -/

def fragLinkUrl2 : String :=

  "\x27, \x27url\x27, \x27"

/-- Literal fragment 3 of the corresponding template of `generate_html`. -/

def fragLinkUrl3 : String :=

  "\x27)\" title=\"Edit URL\">‚úèÔ∏è</span>\n                        </a>\n                    </div>\n                "

/-- Literal fragment 0 of the corresponding template of `generate_html`. -/

def fragLinkNoUrl0 : String :=

  "\n                    <div class=\"paper-links\">\n                        <button class=\"edit-btn\" onclick=\"openEditModal(\x27"

/-- Literal fragment 1 of the corresponding template of `generate_html`. -/

def fragLinkNoUrl1 : String :=

  "\x27, \x27url\x27, \x27\x27)\" title=\"Add URL\">‚úèÔ∏è Add link</button>\n                    </div>\n                "

/-- Literal fragment 0 of the corresponding template of `generate_html`. -/

def fragAbsYes0 : String :=

  "\n                    <details class=\"abstract-toggle\">\n                        <summary>\n                            üßª Abstract\n                            <button class=\"edit-btn-inline\" onclick=\"event.stopPropagation(); openEditModal(\x27"

/-- Literal fragment 1 of the corresponding template of `generate_html`. -/

def fragAbsYes1 : String :=

  "\x27, \x27abstract\x27, \x27"

/-- Literal fragment 2 of the corresponding template of `generate_html`. -/

def fragAbsYes2 : String :=

  "\x27)\" title=\"Edit Abstract\">‚úèÔ∏è</button>\n                        </summary>\n                        <div class=\"abstract-body\">"

/-- Literal fragment 3 of the corresponding template of `generate_html`. -/

def fragAbsYes3 : String :=

  "</div>\n                    </details>\n                "

/-- Literal fragment 0 of the corresponding template of `generate_html`. -/

def fragAbsNo0 : String :=

  "\n                    <details class=\"abstract-toggle\">\n                        <summary>\n                            üßª Abstract\n                            <button class=\"edit-btn-inline\" onclick=\"event.stopPropagation(); openEditModal(\x27"

/-- Literal fragment 1 of the corresponding template of `generate_html`. -/

def fragAbsNo1 : String :=

  "\x27, \x27abstract\x27, \x27\x27)\" title=\"Add Abstract\">‚úèÔ∏è</button>\n                        </summary>\n                        <div class=\"abstract-body abstract-missing\">Abstract not available yet (you can paste it into url.json).</div>\n                    </details>\n                "

/-- Literal fragment 0 of the corresponding template of `generate_html`. -/

def fragActions0 : String :=

  "\n                    <div class=\"paper-actions\">\n                        "

/-- Literal fragment 1 of the corresponding template of `generate_html`. -/

def fragActions1 : String :=

  "\n                        "

/-- Literal fragment 2 of the corresponding template of `generate_html`. -/

def fragActions2 : String :=

  "\n                    </div>\n                "

/-- Literal fragment 0 of the corresponding template of `generate_html`. -/

def fragCard0 : String :=

  "\n            <article class=\"paper-card\" data-paper-id=\""

/-- Literal fragment 1 of the corresponding template of `generate_html`. -/

def fragCard1 : String :=

  "\">\n                <div class=\"thumbnail-wrapper\">\n                    "

/-- Literal fragment 2 of the corresponding template of `generate_html`. -/

def fragCard2 : String :=

  "\n                </div>\n                <div class=\"card-content\">\n                    <h3>"

/-- Literal fragment 3 of the corresponding template of `generate_html`. -/

def fragCard3 : String :=

  "</h3>\n                    "

/-- Literal fragment 4 of the corresponding template of `generate_html`. -/

def fragCard4 : String :=

  "\n                    "

/-- Literal fragment 5 of the corresponding template of `generate_html`. -/

def fragCard5 : String :=

  "\n                </div>\n            </article>\n            "

/-- Literal fragment 0 of the session template of `generate_html`. -/

def fragSection0 : String :=

  "\n        <section class=\"session\">\n            <div class=\"session-header\">\n                <h2>"

/-- Literal fragment 1 of the session template of `generate_html`. -/

def fragSection1 : String :=

  "</h2>\n                <span class=\"session-count\">"

/-- Literal fragment 2 of the session template of `generate_html`. -/

def fragSection2 : String :=

  " papers</span>\n            </div>\n            <div class=\"papers-grid\">\n                "

/-- Literal fragment 3 of the session template of `generate_html`. -/

def fragSection3 : String :=

  "\n            </div>\n        </section>\n        "

/-- Literal fragment 0 of the corresponding template of `generate_html`. -/

def fragPage0 : String :=

  "<!DOCTYPE html>\n<html lang=\"en\">\n<head>\n    <meta charset=\"UTF-8\">\n    <meta name=\"viewport\" content=\"width=device-width, initial-scale=1.0\">\n    <title>SIGGRAPH Asia 2025 - Technical Papers</title>\n    <link rel=\"icon\" href=\"data:image/svg+xml,<svg xmlns=\x27http://www.w3.org/2000/svg\x27 viewBox=\x270 0 100 100\x27><text y=\x27.9em\x27 font-size=\x2790\x27>üé¨</text></svg>\">\n    <style>\n"

/-- Literal fragment 1 of the corresponding template of `generate_html`. -/

def fragPage1 : String :=

  "\n    </style>\n</head>\n<body>\n    <div class=\"bg-pattern\"></div>\n    \n    <header>\n        <div class=\"logo\">ACM SIGGRAPH</div>\n        <h1>SIGGRAPH Asia 2025</h1>\n        <p class=\"subtitle\">Technical Papers Collection</p>\n        \n        <div class=\"meta-info\">\n            <span><span class=\"icon\">üìç</span> Hong Kong</span>\n            <span><span class=\"icon\">üìÖ</span> December 13-19, 2025</span>\n        </div>\n        \n        <div class=\"stats-bar\">\n            <div class=\"stat-item\">\n                <div class=\"stat-value\">"

/-- Literal fragment 2 of the corresponding template of `generate_html`. -/

def fragPage2 : String :=

  "</div>\n                <div class=\"stat-label\">Technical Papers</div>\n            </div>\n            <div class=\"stat-item\">\n                <div class=\"stat-value\">"

/-- Literal fragment 3 of the corresponding template of `generate_html`. -/

def fragPage3 : String :=

  "</div>\n                <div class=\"stat-label\">Sessions</div>\n            </div>\n        </div>\n    </header>\n    \n    <main class=\"container\">\n        "

/-- Literal fragment 4 of the corresponding template of `generate_html`. -/

def fragPage4 : String :=

  "\n    </main>\n    \n    <footer>\n        <p>Data sourced from <a href=\"https://sa2025.conference-schedule.org/\" target=\"_blank\" rel=\"noopener\">SIGGRAPH Asia 2025 Conference Schedule</a></p>\n        <p style=\"margin-top: 0.5rem; opacity: 0.7;\">Generated with Python</p>\n    </footer>\n    \n    <!-- Edit Modal -->\n    <div id=\"editModal\" class=\"edit-modal\">\n        <div class=\"edit-modal-content\">\n            <div class=\"edit-modal-header\">\n                <h3 id=\"modalTitle\">Edit</h3>\n                <button class=\"edit-modal-close\" onclick=\"closeEditModal()\">√ó</button>\n            </div>\n            <div class=\"edit-modal-body\">\n                <label id=\"modalLabel\" for=\"editInput\">Value:</label>\n                <input type=\"text\" id=\"editInput\" style=\"display: none;\">\n                <textarea id=\"editTextarea\" style=\"display: none;\"></textarea>\n            </div>\n            <div class=\"edit-modal-footer\">\n                <button class=\"edit-modal-btn cancel\" onclick=\"closeEditModal()\">Cancel</button>\n                <button class=\"edit-modal-btn save\" onclick=\"saveEdit()\">Save</button>\n            </div>\n        </div>\n    </div>\n    \n    <!-- Export Button -->\n    <div class=\"export-btn-container\">\n        <button class=\"export-btn\" onclick=\"exportToJson()\">üì• Export url.json</button>\n    </div>\n    \n    <script>\n        let currentEdit = \x7b\x27paperId\x27: null, \x27field\x27: null\x7d;\n        const editsKey = \x27siggraph_paper_edits\x27;\n        \n        function openEditModal(paperId, field, currentValue) \x7b\n            currentEdit.paperId = paperId;\n            currentEdit.field = field;\n            \n            const modal = document.getElementById(\x27editModal\x27);\n            const title = document.getElementById(\x27modalTitle\x27);\n            const label = document.getElementById(\x27modalLabel\x27);\n            const input = document.getElementById(\x27editInput\x27);\n            const textarea = document.getElementById(\x27editTextarea\x27);\n            \n            if (field === \x27url\x27) \x7b\n                title.textContent = \x27Edit URL\x27;\n                label.textContent = \x27URL:\x27;\n                input.style.display = \x27block\x27;\n                textarea.style.display = \x27none\x27;\n                input.value = currentValue || \x27\x27;\n                input.focus();\n            \x7d else if (field === \x27abstract\x27) \x7b\n                title.textContent = \x27Edit Abstract\x27;\n                label.textContent = \x27Abstract:\x27;\n                input.style.display = \x27none\x27;\n                textarea.style.display = \x27block\x27;\n                textarea.value = currentValue || \x27\x27;\n                textarea.focus();\n            \x7d\n            \n            modal.classList.add(\x27active\x27);\n        \x7d\n        \n        function closeEditModal() \x7b\n            document.getElementById(\x27editModal\x27).classList.remove(\x27active\x27);\n            currentEdit.paperId = null;\n            currentEdit.field = null;\n        \x7d\n        \n        function saveEdit() \x7b\n            if (!currentEdit.paperId || !currentEdit.field) return;\n            \n            const input = document.getElementById(\x27editInput\x27);\n            const textarea = document.getElementById(\x27editTextarea\x27);\n            const value = currentEdit.field === \x27url\x27 ? input.value.trim() : textarea.value.trim();\n            \n            // Save to localStorage\n            let edits = JSON.parse(localStorage.getItem(editsKey) || \x27\x7b\x7d\x27);\n            if (!edits[currentEdit.paperId]) \x7b\n                edits[currentEdit.paperId] = \x7b\x7d;\n            \x7d\n            edits[currentEdit.paperId][currentEdit.field] = value;\n            localStorage.setItem(editsKey, JSON.stringify(edits));\n            \n            // Update the UI immediately\n            updateUI(currentEdit.paperId, currentEdit.field, value);\n            \n            closeEditModal();\n        \x7d\n        \n        function updateUI(paperId, field, value) \x7b\n            const card = document.querySelector(\x60[data-paper-id=\"$\x7bpaperId\x7d\"]\x60);\n            if (!card) return;\n            \n            if (field === \x27url\x27) \x7b\n                const linkDiv = card.querySelector(\x27.paper-links\x27);\n                if (value) \x7b\n                    const link = linkDiv.querySelector(\x27.paper-link\x27);\n                    if (link) \x7b\n                        link.href = value;\n                        // Update or add edit icon inside the link\n                        let editIcon = link.querySelector(\x27.edit-icon-inline\x27);\n                        const escapedValue = value.replace(/\x27/g, \"\\\\\x27\");\n                        if (!editIcon) \x7b\n                            editIcon = document.createElement(\x27span\x27);\n                            editIcon.className = \x27edit-icon-inline\x27;\n                            editIcon.title = \x27Edit URL\x27;\n                            editIcon.textContent = \x27‚úèÔ∏è\x27;\n                            editIcon.onclick = (e) => \x7b\n                                e.preventDefault();\n                                e.stopPropagation();\n                                openEditModal(paperId, \x27url\x27, value);\n                            \x7d;\n                            link.appendChild(editIcon);\n                        \x7d else \x7b\n                            editIcon.onclick = (e) => \x7b\n                                e.preventDefault();\n                                e.stopPropagation();\n                                openEditModal(paperId, \x27url\x27, value);\n                            \x7d;\n                        \x7d\n                    \x7d else \x7b\n                        const escapedValue = value.replace(/\x27/g, \"\\\\\x27\");\n                        linkDiv.innerHTML = \x60<a class=\"paper-link\" href=\"$\x7bvalue\x7d\" target=\"_blank\" rel=\"noopener\">üîó Open link<span class=\"edit-icon-inline\" onclick=\"event.preventDefault(); event.stopPropagation(); openEditModal(\x27$\x7bpaperId\x7d\x27, \x27url\x27, \x27$\x7bescapedValue\x7d\x27)\" title=\"Edit URL\">‚úèÔ∏è</span></a>\x60;\n                    \x7d\n                \x7d\n                // Update title link too\n                const titleLink = card.querySelector(\x27.paper-title-link\x27);\n                if (titleLink) \x7b\n                    titleLink.href = value;\n                \x7d\n            \x7d else if (field === \x27abstract\x27) \x7b\n                const details = card.querySelector(\x27.abstract-toggle\x27);\n                if (details) \x7b\n                    const body = details.querySelector(\x27.abstract-body\x27);\n                    if (body) \x7b\n                        body.textContent = value || \x27Abstract not available yet (you can paste it into url.json).\x27;\n                        body.classList.toggle(\x27abstract-missing\x27, !value);\n                    \x7d\n                \x7d\n            \x7d\n        \x7d\n        \n        function exportToJson() \x7b\n            const edits = JSON.parse(localStorage.getItem(editsKey) || \x27\x7b\x7d\x27);\n            if (Object.keys(edits).length === 0) \x7b\n                alert(\x27No edits to export! Make some edits first.\x27);\n                return;\n            \x7d\n            \n            // Load original url.json structure\n            fetch(\x27url.json\x27)\n                .then(r => r.json())\n                .then(original => \x7b\n                    // Merge edits into original\n                    const updated = original.map(entry => \x7b\n                        const pid = entry.id;\n                        if (edits[pid]) \x7b\n                            if (edits[pid].url !== undefined) entry.url = edits[pid].url;\n                            if (edits[pid].abstract !== undefined) entry.abstract = edits[pid].abstract;\n                        \x7d\n                        return entry;\n                    \x7d);\n                    \n                    // Download as JSON file\n                    const blob = new Blob([JSON.stringify(updated, null, 2)], \x7b\x27type\x27: \x27application/json\x27\x7d);\n                    const url = URL.createObjectURL(blob);\n                    const a = document.createElement(\x27a\x27);\n                    a.href = url;\n                    a.download = \x27url.json\x27;\n                    a.click();\n                    URL.revokeObjectURL(url);\n                \x7d)\n                .catch(() => \x7b\n                    alert(\x27Could not load url.json. Edits saved to localStorage only.\x27);\n                \x7d);\n        \x7d\n        \n        // Load edits from localStorage on page load\n        window.addEventListener(\x27DOMContentLoaded\x27, () => \x7b\n            const edits = JSON.parse(localStorage.getItem(editsKey) || \x27\x7b\x7d\x27);\n            for (const [paperId, fields] of Object.entries(edits)) \x7b\n                if (fields.url !== undefined) updateUI(paperId, \x27url\x27, fields.url);\n                if (fields.abstract !== undefined) updateUI(paperId, \x27abstract\x27, fields.abstract);\n            \x7d\n        \x7d);\n        \n        // Close modal on background click\n        document.getElementById(\x27editModal\x27).addEventListener(\x27click\x27, (e) => \x7b\n            if (e.target.id === \x27editModal\x27) closeEditModal();\n        \x7d);\n    </script>\n</body>\n</html>\n"

/-- Literal fragment 0 of the corresponding template of `generate_html`. -/

def fragImg0 : String :=

  "<img class=\"thumbnail\" src=\""

/-- Literal fragment 1 of the corresponding template of `generate_html`. -/

def fragImg1 : String :=

  "\" alt=\"\" loading=\"lazy\">"

/-- Literal fragment 0 of the corresponding template of `generate_html`. -/

def fragPlaceholder0 : String :=

  "<div class=\"thumbnail placeholder\">üìÑ</div>"

/-- Literal fragment 0 of the corresponding template of `generate_html`. -/

def fragAuthors0 : String :=

  "<p class=\"authors\">"

/-- Literal fragment 1 of the corresponding template of `generate_html`. -/

def fragAuthors1 : String :=

  "</p>"

/-- Literal fragment 0 of the corresponding template of `generate_html`. -/

def fragTitle0 : String :=

  "<a class=\"paper-title-link\" href=\""

/-- Literal fragment 1 of the corresponding template of `generate_html`. -/

def fragTitle1 : String :=

  "\" target=\"_blank\" rel=\"noopener\">"

/-- Literal fragment 2 of the corresponding template of `generate_html`. -/

def fragTitle2 : String :=

  "</a>"

/-- The thumbnail markup of one paper card. -/
def thumbHtmlOf (paper : Paper) : String :=
  if paper.image.getD "" ≠ "" then fragImg0 ++ paper.image.getD "" ++ fragImg1
  else fragPlaceholder0

/-- The authors markup of one paper card (first six authors, escaped). -/
def authorsHtmlOf (paper : Paper) : String :=
  let authors_str := String.intercalate ", " (paper.authors.take 6)
  if authors_str ≠ "" then fragAuthors0 ++ html_escape authors_str ++ fragAuthors1
  else ""

/-- The markup of one paper card of `generate_html`. -/
def paperCardHtml (url_map abstract_map : List (String × String))
    (paper : Paper) : String :=
  let thumb_html := thumbHtmlOf paper
  let authors_html := authorsHtmlOf paper
  let pid := "papers_" ++ paper.id
  let paper_url := stripS ((alookup url_map pid).getD "")
  let paper_abstract := stripS ((alookup abstract_map pid).getD "")
  let safe_title := html_escape paper.title
  let title_html :=
    if paper_url ≠ "" then
      fragTitle0 ++ safeUrlOf paper_url ++ fragTitle1 ++ safe_title ++ fragTitle2
    else safe_title
  let link_block_html :=
    if paper_url ≠ "" then
      fragLinkUrl0 ++ safeUrlOf paper_url ++ fragLinkUrl1 ++ pid ++ fragLinkUrl2
        ++ jsEscape paper_url ++ fragLinkUrl3
    else fragLinkNoUrl0 ++ pid ++ fragLinkNoUrl1
  let abstract_html :=
    if paper_abstract ≠ "" then
      fragAbsYes0 ++ pid ++ fragAbsYes1 ++ jsEscape paper_abstract ++ fragAbsYes2
        ++ html_escape paper_abstract ++ fragAbsYes3
    else fragAbsNo0 ++ pid ++ fragAbsNo1
  let actions_html :=
    if link_block_html ≠ "" ∨ abstract_html ≠ "" then
      fragActions0 ++ link_block_html ++ fragActions1 ++ abstract_html ++ fragActions2
    else ""
  fragCard0 ++ pid ++ fragCard1 ++ thumb_html ++ fragCard2 ++ title_html
    ++ fragCard3 ++ authors_html ++ fragCard4 ++ actions_html ++ fragCard5

/-- The markup of one session section of `generate_html`. -/
def sessionHtml (url_map abstract_map : List (String × String))
    (sp : String × List Paper) : String :=
  let papers_html := sp.2.foldl
    (fun acc paper => acc ++ paperCardHtml url_map abstract_map paper) ""
  fragSection0 ++ sp.1 ++ fragSection1 ++ toString sp.2.length ++ fragSection2
    ++ papers_html ++ fragSection3

/-- The document `generate_html` renders from the grouped papers and the two
sidecar-derived lookups. -/
def generateHtmlCore (papers_by_session : List (String × List Paper))
    (url_map abstract_map : List (String × String)) : String :=
  let total_papers := (papers_by_session.map (fun sp => sp.2.length)).sum
  let total_sessions := papers_by_session.length
  let sessions_html := papers_by_session.foldl
    (fun acc sp => acc ++ sessionHtml url_map abstract_map sp) ""
  fragPage0 ++ cssText ++ fragPage1 ++ toString total_papers ++ fragPage2
    ++ toString total_sessions ++ fragPage3 ++ sessions_html ++ fragPage4

/-- `generate_html`: computes the url and abstract lookups from the sidecar
file, then renders the HTML document from the grouped papers and those
lookups. -/
def generate_html (papers_by_session : List (String × List Paper))
    (file : Option J) : String :=
  let url_map := load_urls_for_html file
  let abstract_map := load_abstracts_for_html file
  generateHtmlCore papers_by_session url_map abstract_map

/-- C7: Renderer purity/determinism.  The rendered document depends on the
sidecar state only through the two derived lookups: any two sidecar states
yielding equal url and abstract lookups produce character-for-character
identical HTML for the same grouped papers, and equal inputs trivially give
equal output since the renderer is a pure function of its arguments. -/
theorem generate_html_pure (papers_by_session : List (String × List Paper))
    (file1 file2 : Option J)
    (hu : load_urls_for_html file1 = load_urls_for_html file2)
    (ha : load_abstracts_for_html file1 = load_abstracts_for_html file2) :
    generate_html papers_by_session file1 = generate_html papers_by_session file2 := by
  unfold generate_html
  rw [hu, ha]

theorem generate_html_pure_witness :
    generate_html [] none = generate_html [] (some (J.jarr [])) :=
  generate_html_pure [] none (some (J.jarr [])) rfl rfl
